import Mathlib

/-!
Verification development for the `clyde` repository (shallow embedding).

The definitions below are translated from the Python sources:
  * `src/config.py`            — `ClydeConfig`, its defaulting, (de)serialization, hashing
  * `src/bulletproof_sync.py`  — the bulletproof sync orchestrator, snapshot store,
                                 rollback, snapshot cleanup, audit trail
  * `src/sync.py`              — collaborator interfaces the orchestrator consumes

Python dictionaries are modelled as association lists, the filesystem as an
association list from project-relative paths to file contents, and Python
exceptions as `Except` values.  Library calls that are external to the
repository (PyYAML serialization, `json.loads`, `hashlib`) are modelled
explicitly where their output matters (a `yaml.dump` model and an MD5
implementation for the configuration hash) and kept as parameters where only
success/failure matters (the JSON line parser of the audit trail).
-/

namespace Clyde

/-! ## Configuration model (`src/config.py`) -/

/-- A YAML-representable scalar value, covering the value shapes stored in a
configuration's `options` mapping (`Dict[str, Any]` whose values are booleans
or strings in this code base). -/
inductive YVal where
  | b (v : Bool)
  | s (v : String)
  deriving DecidableEq, Repr

/-- `ClydeConfig` dataclass fields (`config.py`, lines 13–26).  `project_path`
is not part of the semantic contents (it is never serialized) and is omitted.
Dictionaries are association lists in declaration order. -/
structure ClydeConfig where
  project_name : String
  language : String
  framework : Option String := none
  database : Option String := none
  project_type : String := "application"
  includes : List String := []
  custom_modules : List (List (String × String)) := []
  options : List (String × YVal) := []
  version : String := "1.0"
  deriving DecidableEq, Repr

/-- Python truthiness of an optional string (`if self.framework:` is false for
both `None` and the empty string). -/
def optStrTruthy : Option String → Bool
  | some s => !s.isEmpty
  | none => false

/-- `ClydeConfig._get_framework_modules` (`config.py`, lines 67–76). -/
def getFrameworkModules (framework : String) : List String :=
  if framework = "fastapi" then ["fastapi.structure", "fastapi.patterns"]
  else if framework = "react" then ["react.structure", "react.patterns"]
  else if framework = "nextjs" then ["nextjs.structure", "nextjs.patterns"]
  else if framework = "django" then ["python.django"]
  else []

/-- `ClydeConfig._set_default_includes` (`config.py`, lines 36–65): the four
core modules, then language-specific, framework-specific and database
modules. -/
def defaultIncludes (language : String) (framework database : Option String) :
    List String :=
  let includes := ["core.tdd", "core.modularity", "core.dry", "core.general"]
  let includes := includes ++
    (if language = "python" then ["python.general", "python.testing"]
     else if language = "javascript" || language = "typescript" then
       ["javascript.general", "javascript.testing"]
     else [])
  let includes := includes ++
    (if optStrTruthy framework then getFrameworkModules (framework.getD "") else [])
  if optStrTruthy database then includes ++ [database.getD ""] else includes

/-- `ClydeConfig._set_default_options` (`config.py`, lines 78–84). -/
def defaultOptions : List (String × YVal) :=
  [("show_module_boundaries", .b true),
   ("include_toc", .b true),
   ("validation_level", .s "normal")]

/-- `ClydeConfig.__post_init__` (`config.py`, lines 28–34): runs on every
construction; an empty `includes` list and an empty `options` dict are
replaced by defaults. -/
def postInit (c : ClydeConfig) : ClydeConfig :=
  let c :=
    if c.includes.isEmpty then
      { c with includes := defaultIncludes c.language c.framework c.database }
    else c
  if c.options.isEmpty then { c with options := defaultOptions } else c

/-- Constructing a `ClydeConfig` in Python always runs `__post_init__`. -/
def mkConfig (c : ClydeConfig) : ClydeConfig := postInit c

/-- The nested `project` dictionary of `ClydeConfig.to_dict`
(`config.py`, lines 157–162). -/
structure ProjectDict where
  name : String
  type : String
  language : String
  framework : Option String
  deriving DecidableEq, Repr

/-- The dictionary produced by `ClydeConfig.to_dict` (`config.py`,
lines 153–166).  Note that `to_dict` emits no `database` key. -/
structure ConfigDict where
  version : String
  project : ProjectDict
  includes : List String
  custom_modules : List (List (String × String))
  options : List (String × YVal)
  deriving DecidableEq, Repr

/-- `ClydeConfig.to_dict` (`config.py`, lines 153–166). -/
def ClydeConfig.to_dict (c : ClydeConfig) : ConfigDict :=
  { version := c.version
    project :=
      { name := c.project_name
        type := c.project_type
        language := c.language
        framework := c.framework }
    includes := c.includes
    custom_modules := c.custom_modules
    options := c.options }

/-- The `project` sub-mapping as seen by `ClydeConfig.from_dict`: each key may
be absent (`None` means the key was missing from the parsed YAML). -/
structure RawProject where
  name : Option String := none
  type : Option String := none
  language : Option String := none
  framework : Option String := none
  deriving DecidableEq, Repr

/-- A parsed YAML mapping as consumed by `ClydeConfig.from_dict`: every key
the method reads, each possibly absent. -/
structure RawConfig where
  version : Option String := none
  project : Option RawProject := none
  database : Option String := none
  includes : Option (List String) := none
  custom_modules : Option (List (List (String × String))) := none
  options : Option (List (String × YVal)) := none
  deriving DecidableEq, Repr

/-- `ClydeConfig.from_dict` (`config.py`, lines 168–184).  Each
`data.get(key, default)` becomes `Option.getD`; constructing the dataclass
runs `__post_init__`, hence the `postInit` wrapper. -/
def from_dict (data : RawConfig) : ClydeConfig :=
  let projectInfo := data.project.getD {}
  postInit
    { version := data.version.getD "1.0"
      project_name := projectInfo.name.getD "Unknown Project"
      project_type := projectInfo.type.getD "application"
      language := projectInfo.language.getD "python"
      framework := projectInfo.framework
      database := data.database
      includes := data.includes.getD []
      custom_modules := data.custom_modules.getD []
      options := data.options.getD [] }

/-- Outcome of opening and YAML-parsing the configuration file, as seen by
`ClydeConfig.from_file` (`config.py`, lines 186–196): the file may be absent,
may fail to parse (`yaml.safe_load` raises), or parses to `None` (empty file)
or to a mapping. -/
inductive LoadInput where
  | absent
  | malformed
  | parsed (d : Option RawConfig)
  deriving DecidableEq, Repr

/-- Exceptions that can escape `ClydeConfig.from_file`. -/
inductive LoadError where
  | fileNotFound
  | yamlError
  | attributeError
  deriving DecidableEq, Repr

/-- `ClydeConfig.from_file` (`config.py`, lines 186–196): raises
`FileNotFoundError` when the file is absent; a `yaml.YAMLError` from
`safe_load` propagates; when the file parses to `None` (empty file),
`data.get("project", {})` raises `AttributeError`; otherwise delegates to
`from_dict`. -/
def from_file : LoadInput → Except LoadError ClydeConfig
  | .absent => .error .fileNotFound
  | .malformed => .error .yamlError
  | .parsed none => .error .attributeError
  | .parsed (some d) => .ok (from_dict d)

/-- Lifts a `to_dict` result into the partial mapping `from_dict` reads from a
re-parsed save.  Every key `to_dict` wrote is present; `database` is `none`
because `to_dict` writes no `database` key.  This composition models
`load(save(C))` along `save`'s direct-YAML branch (`config.py`, lines
220–225; the dump/parse pair of the YAML library is assumed faithful). -/
def rawOfDict (d : ConfigDict) : RawConfig :=
  { version := some d.version
    project := some
      { name := some d.project.name
        type := some d.project.type
        language := some d.project.language
        framework := d.project.framework }
    database := none
    includes := some d.includes
    custom_modules := some d.custom_modules
    options := some d.options }

/-- `load(save(C))` at the semantic level: serialize via `to_dict`, re-read
via `from_dict`. -/
def roundTrip (c : ClydeConfig) : ClydeConfig := from_dict (rawOfDict c.to_dict)

/-! ## MD5 (`hashlib.md5`, used by `ClydeConfig.get_config_hash`)

A complete implementation of RFC 1321 MD5 over byte lists, with 32-bit words
as `Nat` truncated modulo `2^32`. -/

namespace Md5

/-- Truncation to a 32-bit word. -/
def m32 (n : Nat) : Nat := n % 4294967296

/-- 32-bit left rotation. -/
def rotl (x s : Nat) : Nat := m32 ((x <<< s) ||| (x >>> (32 - s)))

/-- 32-bit bitwise complement. -/
def bnot (x : Nat) : Nat := 4294967295 ^^^ x

/-- The 64 sine-derived constants of RFC 1321. -/
def K : List Nat :=
  [0xd76aa478, 0xe8c7b756, 0x242070db, 0xc1bdceee,
   0xf57c0faf, 0x4787c62a, 0xa8304613, 0xfd469501,
   0x698098d8, 0x8b44f7af, 0xffff5bb1, 0x895cd7be,
   0x6b901122, 0xfd987193, 0xa679438e, 0x49b40821,
   0xf61e2562, 0xc040b340, 0x265e5a51, 0xe9b6c7aa,
   0xd62f105d, 0x02441453, 0xd8a1e681, 0xe7d3fbc8,
   0x21e1cde6, 0xc33707d6, 0xf4d50d87, 0x455a14ed,
   0xa9e3e905, 0xfcefa3f8, 0x676f02d9, 0x8d2a4c8a,
   0xfffa3942, 0x8771f681, 0x6d9d6122, 0xfde5380c,
   0xa4beea44, 0x4bdecfa9, 0xf6bb4b60, 0xbebfbc70,
   0x289b7ec6, 0xeaa127fa, 0xd4ef3085, 0x04881d05,
   0xd9d4d039, 0xe6db99e5, 0x1fa27cf8, 0xc4ac5665,
   0xf4292244, 0x432aff97, 0xab9423a7, 0xfc93a039,
   0x655b59c3, 0x8f0ccc92, 0xffeff47d, 0x85845dd1,
   0x6fa87e4f, 0xfe2ce6e0, 0xa3014314, 0x4e0811a1,
   0xf7537e82, 0xbd3af235, 0x2ad7d2bb, 0xeb86d391]

/-- The 64 per-step left-rotation amounts of RFC 1321. -/
def S : List Nat :=
  [7, 12, 17, 22, 7, 12, 17, 22, 7, 12, 17, 22, 7, 12, 17, 22,
   5, 9, 14, 20, 5, 9, 14, 20, 5, 9, 14, 20, 5, 9, 14, 20,
   4, 11, 16, 23, 4, 11, 16, 23, 4, 11, 16, 23, 4, 11, 16, 23,
   6, 10, 15, 21, 6, 10, 15, 21, 6, 10, 15, 21, 6, 10, 15, 21]

/-- One of the 64 MD5 steps, at index `i`, over state `(a, b, c, d)` with
message words `M`. -/
def step (M : List Nat) (st : Nat × Nat × Nat × Nat) (i : Nat) :
    Nat × Nat × Nat × Nat :=
  let (a, b, c, d) := st
  let fg : Nat × Nat :=
    if i < 16 then ((b &&& c) ||| (bnot b &&& d), i)
    else if i < 32 then ((d &&& b) ||| (bnot d &&& c), (5 * i + 1) % 16)
    else if i < 48 then (b ^^^ c ^^^ d, (3 * i + 5) % 16)
    else (c ^^^ (b ||| bnot d), (7 * i) % 16)
  let f := m32 (fg.1 + a + K.getD i 0 + M.getD fg.2 0)
  (d, m32 (b + rotl f (S.getD i 0)), b, c)

/-- Processes one 64-byte chunk into the running digest state. -/
def processChunk (st : Nat × Nat × Nat × Nat) (chunk : List Nat) :
    Nat × Nat × Nat × Nat :=
  let M := (List.range 16).map fun j =>
    chunk.getD (4 * j) 0 + 256 * chunk.getD (4 * j + 1) 0 +
      65536 * chunk.getD (4 * j + 2) 0 + 16777216 * chunk.getD (4 * j + 3) 0
  let r := (List.range 64).foldl (step M) st
  (m32 (st.1 + r.1), m32 (st.2.1 + r.2.1), m32 (st.2.2.1 + r.2.2.1),
    m32 (st.2.2.2 + r.2.2.2))

/-- MD5 padding: a `0x80` byte, zeros to 56 mod 64, then the bit length as
eight little-endian bytes. -/
def padded (msg : List Nat) : List Nat :=
  let L := msg.length
  msg ++ [128] ++ List.replicate ((119 - L % 64) % 64) 0 ++
    (List.range 8).map fun j => ((8 * L) >>> (8 * j)) % 256

/-- Splits a byte list into 64-byte chunks (structural recursion on fuel so
the kernel can evaluate it). -/
def chunksGo : Nat → List Nat → List (List Nat)
  | 0, _ => []
  | fuel + 1, bs => if bs.isEmpty then [] else bs.take 64 :: chunksGo fuel (bs.drop 64)

/-- All 64-byte chunks of a byte list. -/
def chunks (bs : List Nat) : List (List Nat) := chunksGo bs.length bs

/-- Lowercase hexadecimal digit: 0-9 then a-f. -/
def hexDigit (n : Nat) : Char :=
  if n < 10 then Char.ofNat (48 + n) else Char.ofNat (87 + n)

/-- Two-character lowercase hex rendering of a byte. -/
def byteHex (b : Nat) : String := String.mk [hexDigit (b / 16), hexDigit (b % 16)]

/-- The four little-endian bytes of a 32-bit word. -/
def wordLEBytes (w : Nat) : List Nat :=
  [w % 256, (w >>> 8) % 256, (w >>> 16) % 256, (w >>> 24) % 256]

/-- `hashlib.md5(bytes).hexdigest()`: the full 32-character lowercase hex
digest of a byte list. -/
def md5Hex (msg : List Nat) : String :=
  let r := (chunks (padded msg)).foldl processChunk
    (0x67452301, 0xefcdab89, 0x98badcfe, 0x10325476)
  String.join ((wordLEBytes r.1 ++ wordLEBytes r.2.1 ++ wordLEBytes r.2.2.1 ++
    wordLEBytes r.2.2.2).map byteHex)

end Md5

/-- UTF-8 bytes of an ASCII string (for the ASCII strings hashed here, UTF-8
bytes coincide with the code points). -/
def strBytesAscii (s : String) : List Nat := s.data.map Char.toNat

/-! ## PyYAML serialization model for `get_config_hash`

`get_config_hash` (`config.py`, lines 227–232) hashes
`yaml.dump(self.to_dict(), sort_keys=True)`.  The functions below model that
dump for the value shapes occurring in a `to_dict` result: block style,
mapping keys emitted in sorted order, indentless block sequences, `true` /
`false` / `null` scalars, and single-quoting of plain scalars that would
re-parse as numbers (e.g. the version string `1.0`). -/

/-- Whether a plain scalar would re-parse as a number, forcing PyYAML to
single-quote it (modelled for digit/dot strings such as `1.0`). -/
def yamlNumericLike (s : String) : Bool :=
  s.length > 0 && s.data.all fun ch => ch.isDigit || ch = '.'

/-- A string scalar as PyYAML renders it. -/
def yamlScalar (s : String) : String :=
  if s.isEmpty then "''"
  else if yamlNumericLike s then "'" ++ s ++ "'"
  else s

/-- A YAML scalar value as PyYAML renders it. -/
def yamlVal : YVal → String
  | .b true => "true"
  | .b false => "false"
  | .s v => yamlScalar v

/-- Lexicographic comparison of character lists by code point, modelling
Python string comparison (structural recursion, so the kernel can evaluate
it). -/
def charListLe : List Char → List Char → Bool
  | [], _ => true
  | a :: as, b :: bs =>
    if a.toNat < b.toNat then true
    else if b.toNat < a.toNat then false
    else charListLe as bs
  | _ :: _, [] => false

/-- Python `<=` on strings (code-point lexicographic). -/
def strLe (a b : String) : Bool := charListLe a.data b.data

/-- Stable insertion into a list sorted by `le`. -/
def insertBy (le : α → α → Bool) (x : α) : List α → List α
  | [] => [x]
  | y :: ys => if le x y then x :: y :: ys else y :: insertBy le x ys

/-- Stable insertion sort by `le`, modelling Python's stable `sorted`/`sort`:
elements comparing equal keep their original relative order. -/
def sortBy (le : α → α → Bool) : List α → List α
  | [] => []
  | x :: xs => insertBy le x (sortBy le xs)

/-- Key order used by `sort_keys=True` (Python string comparison on keys). -/
def keyLe (a b : String × YVal) : Bool := strLe a.1 b.1

/-- Key order for string-valued mappings (custom module entries). -/
def strKeyLe (a b : String × String) : Bool := strLe a.1 b.1

/-- The `custom_modules` block of the sorted dump: one block-sequence entry
per module dictionary, each dictionary's keys sorted. -/
def customModuleEntryLines (m : List (String × String)) : List String :=
  match (sortBy strKeyLe m).map
      (fun kv => yamlScalar kv.1 ++ ": " ++ yamlScalar kv.2) with
  | [] => ["- {}"]
  | l :: ls => ("- " ++ l) :: ls.map ("  " ++ ·)

/-- The `custom_modules` lines of the sorted dump. -/
def customModulesLines (cms : List (List (String × String))) : List String :=
  if cms.isEmpty then ["custom_modules: []"]
  else "custom_modules:" :: (cms.map customModuleEntryLines).flatten

/-- The `includes` lines of the sorted dump (indentless block sequence). -/
def includesLines (inc : List String) : List String :=
  if inc.isEmpty then ["includes: []"]
  else "includes:" :: inc.map fun m => "- " ++ yamlScalar m

/-- The `options` lines of the sorted dump, keys sorted. -/
def optionsLines (opts : List (String × YVal)) : List String :=
  if opts.isEmpty then ["options: {}"]
  else "options:" :: (sortBy keyLe opts).map
    fun kv => "  " ++ yamlScalar kv.1 ++ ": " ++ yamlVal kv.2

/-- The `project` lines of the sorted dump (its four keys in sorted order). -/
def projectLines (p : ProjectDict) : List String :=
  ["project:",
   "  framework: " ++ (match p.framework with | none => "null" | some f => yamlScalar f),
   "  language: " ++ yamlScalar p.language,
   "  name: " ++ yamlScalar p.name,
   "  type: " ++ yamlScalar p.type]

/-- All lines of `yaml.dump(d, sort_keys=True)` for a `to_dict` result: the
five top-level keys in sorted order
(`custom_modules`, `includes`, `options`, `project`, `version`). -/
def configYamlLines (d : ConfigDict) : List String :=
  customModulesLines d.custom_modules ++ includesLines d.includes ++
    optionsLines d.options ++ projectLines d.project ++
    ["version: " ++ yamlScalar d.version]

/-- `yaml.dump(d, sort_keys=True)` as a single newline-terminated string. -/
def configYamlDump (d : ConfigDict) : String :=
  String.intercalate "\n" (configYamlLines d) ++ "\n"

/-- `ClydeConfig.get_config_hash` (`config.py`, lines 227–232): the MD5 hex
digest of the sorted YAML dump of `to_dict`, truncated to 8 characters. -/
def ClydeConfig.get_config_hash (c : ClydeConfig) : String :=
  String.mk ((Md5.md5Hex (strBytesAscii (configYamlDump c.to_dict))).data.take 8)

/-! ## Filesystem model for the sync engine (`src/bulletproof_sync.py`)

The project directory tree is an association list from project-relative paths
to file contents; `fsGet`/`fsWrite` give first-match lookup and in-place
update, the semantics of a path-indexed store. -/

/-- The project directory tree: project-relative path → file content. -/
abbrev FS := List (String × String)

/-- First-match lookup in an association list. -/
def alistGet : List (String × α) → String → Option α
  | [], _ => none
  | (q, v) :: rest, p => if q = p then some v else alistGet rest p

/-- Content of the file at `p`, if it exists. -/
def fsGet (fs : FS) (p : String) : Option String := alistGet fs p

/-- `Path.exists()` for a project-relative path. -/
def fsExists (fs : FS) (p : String) : Bool := (fsGet fs p).isSome

/-- Writing (creating or overwriting) the file at `p`. -/
def fsWrite : FS → String → String → FS
  | [], p, c => [(p, c)]
  | (q, v) :: rest, p, c =>
    if q = p then (p, c) :: rest else (q, v) :: fsWrite rest p c

/-! ## Sync engine data types (`bulletproof_sync.py`, lines 22–79) -/

/-- `SyncOperation` enum (`bulletproof_sync.py`, lines 22–28). -/
inductive SyncOperation where
  | VALIDATE | BACKUP | SYNC | VERIFY | ROLLBACK
  deriving DecidableEq, Repr

/-- `ValidationIssue` dataclass (`bulletproof_sync.py`, lines 60–67). -/
structure ValidationIssue where
  severity : String
  category : String
  message : String
  file_path : Option String := none
  suggestion : Option String := none
  deriving DecidableEq, Repr

/-- `SyncResult` dataclass (`bulletproof_sync.py`, lines 70–79). -/
structure SyncResult where
  success : Bool
  operation : SyncOperation
  snapshot_id : Option String := none
  issues : List ValidationIssue := []
  changes_made : List String := []
  rollback_available : Bool := false
  message : String := ""
  deriving DecidableEq, Repr

/-- `SyncSnapshot` dataclass (`bulletproof_sync.py`, lines 31–57): the
`snapshot.json` metadata.  `files` maps each backed-up relative path to its
content hash.  The free-form `metadata` dictionary (operation id, tool
version, configuration summary) is never read by any behaviour modelled here
and is omitted. -/
structure SyncSnapshot where
  timestamp : String
  config_hash : String
  operation : String
  files : List (String × String) := []
  deriving DecidableEq, Repr

/-- A snapshot directory: the metadata record plus the physical copies of the
backed-up files at their original relative paths. -/
structure StoredSnapshot where
  meta : SyncSnapshot
  copies : List (String × String) := []
  deriving DecidableEq, Repr

/-- The states of the orchestrator's state machine (spec §4.5).  The Python
code has no explicit state variable; the embedding records entered phases in
a ghost trace so that phase-transition claims can be stated. -/
inductive SyncPhase where
  | VALIDATING | SNAPSHOTTING | SYNCING | VERIFYING | ROLLING_BACK | DONE
  deriving DecidableEq, Repr

/-- The mutable state the orchestrator touches: the project tree, the
snapshot store (`.clyde/.bulletproof/snapshots`), the audit log
(`.clyde/.bulletproof/audit.log`, one entry per `_log_operation` call,
recorded as event name and operation id), and the ghost phase trace. -/
structure World where
  fs : FS
  snapshots : List (String × StoredSnapshot) := []
  audit : List (String × String) := []
  trace : List SyncPhase := []
  deriving DecidableEq, Repr

/-- The collaborator behaviours and ambient values a `bulletproof_sync`
invocation consumes, injected as explicit dependencies (spec §9).  A raised
Python exception is an `Except.error` carrying `str(e)`. -/
structure SyncEnv where
  /-- Modelled from the spec: `config.targets`, the configuration's target
  list (spec §3, §6 "target list").  `bulletproof_sync.py` reads
  `self.config.targets` throughout, but no code under `src/` ever defines a
  `targets` attribute on `ClydeConfig`. -/
  targets : List String
  /-- Behaviour of `_validate_pre_sync` (lines 194–244): a read of ambient
  state (config file, module library, disk space) producing issues, or an
  unhandled exception. -/
  preSync : FS → Except String (List ValidationIssue)
  /-- Whether an exception is raised inside `_create_snapshot`'s `try`
  (lines 366–450): a failed `mkdir`/`copy2`/metadata write. -/
  snapshotCopyFails : Bool
  /-- `datetime.now().isoformat()` at capture time. -/
  timestamp : String
  /-- `_generate_operation_id()` for this invocation. -/
  operationId : String
  /-- `self.config.get_config_hash()` at capture time. -/
  configHash : String
  /-- `hashlib.sha256(file bytes).hexdigest()` (line 416); the hash values
  are recorded in snapshot metadata but never drive control flow. -/
  sha256hex : String → String
  /-- Behaviour of `preview_changes` plus `SyncManager.sync` inside
  `_monitored_sync` (lines 458–466): returns the change list on success or
  the exception message on failure, together with the project tree as the
  write phase left it (mutations made before an exception persist). -/
  syncRun : Option String → FS → Except String (List String) × FS
  /-- Behaviour of `_verify_post_sync` (lines 482–532): a read-only
  validation of the written tree, or an unhandled exception. -/
  postSync : FS → Except String (List ValidationIssue)
  /-- Whether an exception is raised inside `_rollback_to_snapshot`'s `try`
  (lines 536–593). -/
  rollbackCopyFails : Bool
  /-- Whether appending to the audit log succeeds (`_log_operation`,
  lines 651–665, swallows its own failures). -/
  auditWriteOk : Bool

/-- `_log_operation` (lines 651–665): appends one line to the audit log;
its internal `try`/`except` swallows write failures, so it never raises and
never touches anything but the log. -/
def logOp (env : SyncEnv) (event : String) (operationId : String) (w : World) :
    World :=
  if env.auditWriteOk then { w with audit := w.audit ++ [(event, operationId)] }
  else w

/-- Ghost instrumentation: records that the orchestrator entered a phase. -/
def enterPhase (p : SyncPhase) (w : World) : World :=
  { w with trace := w.trace ++ [p] }

/-- The candidate backup paths of `_create_snapshot` (lines 375–403): the
config file, one generated file per target, the bootloader files, and the
project-specific files, in that order. -/
def backupCandidates (targets : List String) : List String :=
  [".clyde/config.yaml"] ++
    targets.map (fun t => ".clyde/generated-" ++ t ++ ".md") ++
    ["claude.md", "gemini.md"] ++
    [".clyde/project-claude.md", ".clyde/project-gemini.md",
     ".clyde/architecture.md"]

/-- `files_to_backup`: each candidate is backed up iff it exists. -/
def filesToBackup (targets : List String) (fs : FS) : List String :=
  (backupCandidates targets).filter (fsExists fs)

/-- `_create_snapshot` (lines 364–452): copies every existing candidate file
into a fresh snapshot directory, records a content hash per file, writes the
metadata record, and returns the snapshot id; any exception inside is caught,
logged as `SNAPSHOT_ERROR`, and turned into `None`. -/
def createSnapshot (env : SyncEnv) (operation : String) (operationId : String)
    (w : World) : Option String × World :=
  if env.snapshotCopyFails then
    (none, logOp env "SNAPSHOT_ERROR" operationId w)
  else
    let snapshotId := operation ++ "_" ++ operationId
    let files := filesToBackup env.targets w.fs
    let copies := files.map fun p => (p, (fsGet w.fs p).getD "")
    let snapshot : SyncSnapshot :=
      { timestamp := env.timestamp
        config_hash := env.configHash
        operation := operation
        files := files.map fun p => (p, env.sha256hex ((fsGet w.fs p).getD "")) }
    let w' := { w with snapshots :=
      w.snapshots ++ [(snapshotId, { meta := snapshot, copies := copies })] }
    (some snapshotId, logOp env "SNAPSHOT_CREATED" operationId w')

/-- `_monitored_sync` (lines 454–480): previews changes, runs the underlying
sync, and converts any exception into a failed `SyncResult` (the tree keeps
whatever the failed write phase already mutated). -/
def monitoredSync (env : SyncEnv) (target : Option String) (w : World) :
    SyncResult × World :=
  match env.syncRun target w.fs with
  | (.ok changes, fs') =>
    ({ success := true, operation := .SYNC, changes_made := changes,
       message := "Sync completed successfully" }, { w with fs := fs' })
  | (.error e, fs') =>
    ({ success := false, operation := .SYNC, message := e }, { w with fs := fs' })

/-- `_rollback_to_snapshot` (lines 534–593): looks the snapshot up, then
copies every file listed in the metadata's `files` mapping whose physical
copy exists back to its original relative path (creating directories as
needed); it deletes nothing.  Snapshots created by `createSnapshot` always
carry their metadata record, so the missing-`snapshot.json` branch of the
source is unreachable here.  An exception inside the `try` is caught, logged
as `ROLLBACK_ERROR`, and turned into a failed result. -/
def rollbackToSnapshot (env : SyncEnv) (snapshotId : String) (w : World) :
    SyncResult × World :=
  match alistGet w.snapshots snapshotId with
  | none =>
    ({ success := false, operation := .ROLLBACK,
       message := "Snapshot " ++ snapshotId ++ " not found" }, w)
  | some st =>
    if env.rollbackCopyFails then
      ({ success := false, operation := .ROLLBACK, message := "Rollback failed" },
        logOp env "ROLLBACK_ERROR" env.operationId w)
    else
      let restored := (st.meta.files.map Prod.fst).filter
        fun p => (alistGet st.copies p).isSome
      let fs' := restored.foldl
        (fun fs p => fsWrite fs p ((alistGet st.copies p).getD "")) w.fs
      ({ success := true, operation := .ROLLBACK, changes_made := restored,
         message := "Successfully rolled back to snapshot " ++ snapshotId },
        logOp env "ROLLBACK_SUCCESS" env.operationId { w with fs := fs' })

/-- `any(issue.severity == "error" for issue in issues)` (line 125). -/
def errorIssueIn (issues : List ValidationIssue) : Bool :=
  issues.any fun issue => issue.severity == "error"

/-- The body of `bulletproof_sync`'s `try` block (lines 122–184), phase by
phase.  An uncaught exception is returned as `.error` together with the world
at the moment it was raised (so the outer handler sees the partially mutated
state, as in Python). -/
def bulletproofSyncBody (env : SyncEnv) (target : Option String) (force : Bool)
    (w : World) : Except (String × World) (SyncResult × World) :=
  let w := enterPhase .VALIDATING w
  match env.preSync w.fs with
  | .error e => .error (e, w)
  | .ok validationResult =>
    if !force && errorIssueIn validationResult then
      .ok ({ success := false, operation := .VALIDATE,
             issues := validationResult,
             message := "Pre-sync validation failed. Use --force to override." },
           enterPhase .DONE w)
    else
      let w := enterPhase .SNAPSHOTTING w
      match createSnapshot env "pre_sync" env.operationId w with
      | (none, w) =>
        .ok ({ success := false, operation := .BACKUP,
               message := "Failed to create backup snapshot" },
             enterPhase .DONE w)
      | (some snapshotId, w) =>
        let w := enterPhase .SYNCING w
        let sr := monitoredSync env target w
        let syncResult := sr.1
        let w := sr.2
        if !syncResult.success then
          let w := enterPhase .ROLLING_BACK w
          let rr := rollbackToSnapshot env snapshotId w
          .ok ({ success := false, operation := .SYNC,
                 snapshot_id := some snapshotId,
                 rollback_available := rr.1.success,
                 message := "Sync failed: " ++ syncResult.message ++
                   ". Rollback " ++
                   (if rr.1.success then "successful" else "failed") ++ "." },
               enterPhase .DONE rr.2)
        else
          let w := enterPhase .VERIFYING w
          match env.postSync w.fs with
          | .error e => .error (e, w)
          | .ok verificationIssues =>
            if !verificationIssues.isEmpty && !force then
              let w := enterPhase .ROLLING_BACK w
              let rr := rollbackToSnapshot env snapshotId w
              .ok ({ success := false, operation := .VERIFY,
                     snapshot_id := some snapshotId,
                     issues := verificationIssues,
                     rollback_available := rr.1.success,
                     message := "Post-sync verification failed. Changes rolled back." },
                   enterPhase .DONE rr.2)
            else
              let w := logOp env "SYNC_SUCCESS" env.operationId w
              .ok ({ success := true, operation := .SYNC,
                     snapshot_id := some snapshotId,
                     issues := validationResult ++ verificationIssues,
                     changes_made := syncResult.changes_made,
                     rollback_available := true,
                     message := "Sync completed successfully with full backup available." },
                   enterPhase .DONE w)

/-- `bulletproof_sync` (lines 108–192): logs `SYNC_START`, runs the body, and
converts any exception escaping the body into a failed `SyncResult` via the
outer `except Exception` handler — so the caller always receives a
`SyncResult`. -/
def bulletproofSync (env : SyncEnv) (target : Option String) (force : Bool)
    (w : World) : SyncResult × World :=
  let w := logOp env "SYNC_START" env.operationId w
  match bulletproofSyncBody env target force w with
  | .ok rw => rw
  | .error (e, w') =>
    ({ success := false, operation := .SYNC,
       message := "Unexpected error during sync: " ++ e },
      logOp env "SYNC_ERROR" env.operationId w')

/-! ## Snapshot listing and retention cleanup (lines 595–645) -/

/-- A snapshot directory as `list_snapshots` sees it: its name and the parsed
`snapshot.json`, `none` when the metadata record is missing or unparseable
(such directories are skipped). -/
structure SnapDir where
  id : String
  meta : Option SyncSnapshot := none
  deriving DecidableEq, Repr

/-- The summary dictionary `list_snapshots` builds per snapshot
(lines 611–617). -/
structure SnapshotSummary where
  id : String
  timestamp : String
  operation : String
  files_count : Nat
  config_hash : String
  deriving DecidableEq, Repr

/-- One entry of `list_snapshots`: skipped when the metadata is absent or
corrupt. -/
def snapshotSummaryOf (d : SnapDir) : Option SnapshotSummary :=
  d.meta.map fun m =>
    { id := d.id, timestamp := m.timestamp, operation := m.operation,
      files_count := m.files.length, config_hash := m.config_hash }

/-- `snapshots.sort(key=..., reverse=True)` ordering: newest timestamp first,
ties keeping original order (Python's stable sort). -/
def summaryTsGe (a b : SnapshotSummary) : Bool := strLe b.timestamp a.timestamp

/-- `list_snapshots` (lines 595–623): parseable snapshot directories,
summarized, sorted newest-first by timestamp. -/
def listSnapshots (dirs : List SnapDir) : List SnapshotSummary :=
  sortBy summaryTsGe (dirs.filterMap snapshotSummaryOf)

/-- The result dictionary of `cleanup_old_snapshots`. -/
structure CleanupResult where
  removed : Nat
  kept : Nat
  errors : List String
  deriving DecidableEq, Repr

/-- One iteration of `cleanup_old_snapshots`'s deletion loop
(lines 635–643): `shutil.rmtree` either raises (`rmtreeFails`), collecting an
error message, or removes the directory and updates the counters. -/
def cleanupStep (rmtreeFails : String → Bool)
    (acc : CleanupResult × List SnapDir) (snapshot : SnapshotSummary) :
    CleanupResult × List SnapDir :=
  if rmtreeFails snapshot.id then
    ({ acc.1 with
        errors := acc.1.errors ++ ["Failed to remove " ++ snapshot.id] },
      acc.2)
  else
    ({ acc.1 with removed := acc.1.removed + 1, kept := acc.1.kept - 1 },
      acc.2.filter fun d => d.id ≠ snapshot.id)

/-- `cleanup_old_snapshots` (lines 625–645), also returning the surviving
snapshot directories.  `rmtreeFails id` models `shutil.rmtree` raising for
that directory; the failure message is collected and the loop continues. -/
def cleanupOldSnapshots (rmtreeFails : String → Bool) (dirs : List SnapDir)
    (keepCount : Nat) : CleanupResult × List SnapDir :=
  let snapshots := listSnapshots dirs
  let init : CleanupResult :=
    { removed := 0, kept := snapshots.length, errors := [] }
  if snapshots.length ≤ keepCount then (init, dirs)
  else (snapshots.drop keepCount).foldl (cleanupStep rmtreeFails) (init, dirs)

/-! ## Audit trail reading (`get_audit_trail`, lines 667–694) -/

/-- Python `str.split('\n')` on the character list: splits at every newline,
keeping empty segments (structural recursion, kernel-evaluable). -/
def pySplitNl : List Char → List (List Char)
  | [] => [[]]
  | c :: cs =>
    if c = '\n' then [] :: pySplitNl cs
    else
      match pySplitNl cs with
      | [] => [[c]]
      | l :: ls => (c :: l) :: ls

/-- Python `str.strip()`: removes leading and trailing whitespace. -/
def pyStrip (cs : List Char) : List Char :=
  ((cs.dropWhile Char.isWhitespace).reverse.dropWhile Char.isWhitespace).reverse

/-- `[line.strip() for line in content.split('\n') if line.strip()]`. -/
def pyStripLines (content : String) : List String :=
  ((pySplitNl content.data).map fun l => String.mk (pyStrip l)).filter
    fun l => l ≠ ""

/-- `lines[-limit:] if len(lines) > limit else lines` — note Python's
`lines[-0:]` is the whole list. -/
def pyTailSlice (lines : List String) (limit : Nat) : List String :=
  if lines.length > limit then
    if limit = 0 then lines else lines.drop (lines.length - limit)
  else lines

/-- `get_audit_trail` (lines 667–694): when the log exists, strips and keeps
non-empty lines, takes the last `limit` of them, then parses each line,
silently skipping unparseable ones (`json.JSONDecodeError` → `continue`).
The JSON parser is a parameter: only its success or failure per line matters
here.  A missing log (or a read failure caught by the outer handler) yields
the empty list. -/
def getAuditTrail (parseLine : String → Option α) (logExists : Bool)
    (content : String) (limit : Nat) : List α :=
  if !logExists then []
  else (pyTailSlice (pyStripLines content) limit).filterMap parseLine

/-- The claim's reading of `tail(limit)` (spec §4.6), stated from the spec's
words for comparison with the implementation: the most recent `limit`
parseable entries, oldest of the window first. -/
def specTailMostRecentParseable (parseLine : String → Option α)
    (content : String) (limit : Nat) : List α :=
  let parsed := (pyStripLines content).filterMap parseLine
  parsed.drop (parsed.length - limit)

/-! ## Concrete configurations, environments and worlds used by the claim theorems -/

/-- A concrete configuration with a database tag, for the C4 counterexample. -/
def c4SourceConfig : ClydeConfig :=
  mkConfig
    { project_name := "app", language := "python", database := some "postgresql" }

/-- A concrete post-init-shaped configuration for C4's amended witness. -/
def c4RoundConfig : ClydeConfig :=
  { project_name := "w", language := "go", includes := ["core.tdd"],
    options := [("include_toc", YVal.b true)] }

/-- Concrete configurations for C5: the same module IDs in two orders. -/
def c5ConfigDT : ClydeConfig :=
  mkConfig
    { project_name := "app", language := "go", includes := ["core.dry", "core.tdd"] }

/-- See `c5ConfigDT`. -/
def c5ConfigTD : ClydeConfig :=
  mkConfig
    { project_name := "app", language := "go", includes := ["core.tdd", "core.dry"] }

/-- A concrete configuration for C5's witness. -/
def c5ConfigSingle : ClydeConfig :=
  mkConfig
    { project_name := "app", language := "go", includes := ["core.tdd"] }

/-- Environment for the C3 counterexample: validation clean, snapshot and
write phase succeed, and post-sync verification reports exactly one
warning-severity issue (the source's "file seems unusually small" warning,
`bulletproof_sync.py` lines 508–514). -/
def c3Env : SyncEnv where
  targets := ["claude"]
  preSync := fun _ => .ok []
  snapshotCopyFails := false
  timestamp := "2024-01-01T00:00:00"
  operationId := "20240101_000000_0"
  configHash := "cafe0000"
  sha256hex := fun _ => "sha"
  syncRun := fun _ fs => (.ok ["Update .clyde/generated-claude.md"], fs)
  postSync := fun _ => .ok
    [{ severity := "warning", category := "file",
       message := "Generated file seems unusually small: claude" }]
  rollbackCopyFails := false
  auditWriteOk := true

/-- Initial world for the C3 counterexample. -/
def c3World : World where
  fs := [(".clyde/config.yaml", "cfg"), (".clyde/generated-claude.md", "gen")]

/-- Environment for the C8 witness: pre-sync validation raises (as the real
code does wherever `config.targets` is touched, since `ClydeConfig` never
defines it). -/
def c8Env : SyncEnv where
  targets := []
  preSync := fun _ => .error "AttributeError: targets"
  snapshotCopyFails := false
  timestamp := "ts"
  operationId := "op"
  configHash := "h"
  sha256hex := fun _ => "sha"
  syncRun := fun _ fs => (.ok [], fs)
  postSync := fun _ => .ok []
  rollbackCopyFails := false
  auditWriteOk := true

/-- Environment for C1: the write phase creates a brand-new file and then
fails; everything else behaves normally. -/
def c1Env : SyncEnv where
  targets := ["claude"]
  preSync := fun _ => .ok []
  snapshotCopyFails := false
  timestamp := "2024-01-01T00:00:00"
  operationId := "op1"
  configHash := "cafe0000"
  sha256hex := fun _ => "sha"
  syncRun := fun _ fs =>
    (.error "Disk full", fsWrite fs ".clyde/generated-claude.md" "partial content")
  postSync := fun _ => .ok []
  rollbackCopyFails := false
  auditWriteOk := true

/-- Pre-sync world for C1: the project has a config file and no generated
file. -/
def c1World : World where
  fs := [(".clyde/config.yaml", "cfg-v1")]

/-- The concrete per-line parser for C7: models `json.loads` succeeding on
every line except the corrupted one. -/
def c7Parse (s : String) : Option String :=
  if s = "notjson" then none else some s

/-- Five snapshot directories with distinct timestamps for C6's witness
(spec §8, Scenario D). -/
def c6Dirs : List SnapDir :=
  [{ id := "s1", meta := some
      { timestamp := "2024-01-01T00:00:01", config_hash := "h", operation := "pre_sync" } },
   { id := "s2", meta := some
      { timestamp := "2024-01-01T00:00:02", config_hash := "h", operation := "pre_sync" } },
   { id := "s3", meta := some
      { timestamp := "2024-01-01T00:00:03", config_hash := "h", operation := "pre_sync" } },
   { id := "s4", meta := some
      { timestamp := "2024-01-01T00:00:04", config_hash := "h", operation := "pre_sync" } },
   { id := "s5", meta := some
      { timestamp := "2024-01-01T00:00:05", config_hash := "h", operation := "pre_sync" } }]

/-- Environment for the C2 witness: pre-sync validation reports one
error-severity issue. -/
def c2Env : SyncEnv where
  targets := ["claude"]
  preSync := fun _ => .ok
    [{ severity := "error", category := "config",
       message := "Configuration file does not exist" }]
  snapshotCopyFails := false
  timestamp := "ts"
  operationId := "op2"
  configHash := "h"
  sha256hex := fun _ => "sha"
  syncRun := fun _ fs => (.ok [], fs)
  postSync := fun _ => .ok []
  rollbackCopyFails := false
  auditWriteOk := true

/-- Initial world for the C2 witness. -/
def c2World : World where
  fs := [(".clyde/config.yaml", "cfg")]

/-! ## Helper lemmas about configuration defaulting -/

theorem defaultIncludes_ne_nil (l : String) (f d : Option String) :
    defaultIncludes l f d ≠ [] := by
  unfold defaultIncludes
  split_ifs <;> simp

theorem defaultIncludes_take_four (l : String) (f d : Option String) :
    (defaultIncludes l f d).take 4 =
      ["core.tdd", "core.modularity", "core.dry", "core.general"] := by
  unfold defaultIncludes
  split_ifs <;> rfl

theorem postInit_includes_of_empty (c : ClydeConfig) (h : c.includes = []) :
    (postInit c).includes = defaultIncludes c.language c.framework c.database := by
  simp [postInit, h, apply_ite]

theorem postInit_options_of_empty (c : ClydeConfig) (h : c.options = []) :
    (postInit c).options = defaultOptions := by
  simp [postInit, h, apply_ite]

theorem postInit_includes_ne_nil (c : ClydeConfig) : (postInit c).includes ≠ [] := by
  by_cases h : c.includes = []
  · rw [postInit_includes_of_empty c h]
    exact defaultIncludes_ne_nil _ _ _
  · have hf : c.includes.isEmpty = false := by simpa [List.isEmpty_iff] using h
    simp [postInit, hf, apply_ite, h]

theorem postInit_options_ne_nil (c : ClydeConfig) : (postInit c).options ≠ [] := by
  by_cases h : c.options = []
  · rw [postInit_options_of_empty c h]
    simp [defaultOptions]
  · have hf : c.options.isEmpty = false := by simpa [List.isEmpty_iff] using h
    simp [postInit, hf, apply_ite, h]

theorem postInit_of_ne_nil (c : ClydeConfig) (h1 : c.includes ≠ [])
    (h2 : c.options ≠ []) : postInit c = c := by
  unfold postInit
  simp [List.isEmpty_iff, h1, h2]

set_option maxRecDepth 40000 in
/-- Sanity check of the MD5 embedding against the RFC 1321 test vector for
the empty message. -/
theorem md5_empty_vector : Md5.md5Hex [] = "d41d8cd98f00b204e9800998ecf8427e" := by
  decide

set_option maxRecDepth 40000 in
/-- Sanity check of the MD5 embedding against the RFC 1321 test vector for
`"abc"`. -/
theorem md5_abc_vector :
    Md5.md5Hex (strBytesAscii "abc") = "900150983cd24fb0d6963f7d28e17f72" := by
  decide


/-! ## Further helper lemmas -/

theorem postInit_project_name (c : ClydeConfig) :
    (postInit c).project_name = c.project_name := by
  simp only [postInit]
  split <;> split <;> rfl

theorem postInit_project_type (c : ClydeConfig) :
    (postInit c).project_type = c.project_type := by
  simp only [postInit]
  split <;> split <;> rfl

theorem postInit_language (c : ClydeConfig) :
    (postInit c).language = c.language := by
  simp only [postInit]
  split <;> split <;> rfl

theorem postInit_framework (c : ClydeConfig) :
    (postInit c).framework = c.framework := by
  simp only [postInit]
  split <;> split <;> rfl

theorem postInit_database (c : ClydeConfig) :
    (postInit c).database = c.database := by
  simp only [postInit]
  split <;> split <;> rfl


theorem string_append_left_cancel {s t u : String} (h : s ++ t = s ++ u) :
    t = u := by
  have hd := congrArg String.data h
  simp only [String.data_append] at hd
  exact String.ext (List.append_cancel_left hd)

theorem dashMap_inj (i1 : List String) :
    ∀ i2 : List String, (∀ m ∈ i1, yamlScalar m = m) →
      (∀ m ∈ i2, yamlScalar m = m) →
      i1.map (fun m => "- " ++ yamlScalar m) =
        i2.map (fun m => "- " ++ yamlScalar m) →
      i1 = i2 := by
  induction i1 with
  | nil =>
    intro i2 _ _ h
    cases i2 with
    | nil => rfl
    | cons b bs => simp at h
  | cons a as ih =>
    intro i2 h1 h2 h
    cases i2 with
    | nil => simp at h
    | cons b bs =>
      simp only [List.map_cons, List.cons.injEq] at h
      obtain ⟨hh, ht⟩ := h
      rw [h1 a (List.mem_cons_self a as), h2 b (List.mem_cons_self b bs)] at hh
      rw [string_append_left_cancel hh,
        ih bs (fun m hm => h1 m (List.mem_cons_of_mem _ hm))
          (fun m hm => h2 m (List.mem_cons_of_mem _ hm)) ht]

theorem includesLines_inj (i1 i2 : List String)
    (h1 : ∀ m ∈ i1, yamlScalar m = m) (h2 : ∀ m ∈ i2, yamlScalar m = m)
    (h : includesLines i1 = includesLines i2) : i1 = i2 := by
  cases i1 with
  | nil =>
    cases i2 with
    | nil => rfl
    | cons b bs => simp [includesLines] at h
  | cons a as =>
    cases i2 with
    | nil => simp [includesLines] at h
    | cons b bs =>
      simp only [includesLines, List.isEmpty_cons, Bool.false_eq_true,
        if_false, List.cons.injEq, true_and] at h
      exact dashMap_inj _ _ h1 h2 h

/-! ## Claim theorems -/

/-- C10: constructing a `ClydeConfig` with an empty includes list replaces it
with the non-empty default list (`defaultIncludes`, which starts with the
four core modules), an empty options map is replaced with the three default
options, and consequently no constructed or `from_dict`-loaded configuration
has an empty includes list or options map. -/
theorem C10_constructor_defaulting :
    (∀ c : ClydeConfig, c.includes = [] →
      (mkConfig c).includes = defaultIncludes c.language c.framework c.database ∧
      (mkConfig c).includes.take 4 =
        ["core.tdd", "core.modularity", "core.dry", "core.general"]) ∧
    (∀ c : ClydeConfig, c.options = [] →
      (mkConfig c).options =
        [("show_module_boundaries", YVal.b true), ("include_toc", YVal.b true),
         ("validation_level", YVal.s "normal")]) ∧
    (∀ c : ClydeConfig, (mkConfig c).includes ≠ [] ∧ (mkConfig c).options ≠ []) ∧
    (∀ d : RawConfig, (from_dict d).includes ≠ [] ∧ (from_dict d).options ≠ []) := by
  refine ⟨?_, ?_, ?_, ?_⟩
  · intro c h
    refine ⟨postInit_includes_of_empty c h, ?_⟩
    rw [mkConfig, postInit_includes_of_empty c h, defaultIncludes_take_four]
  · intro c h
    exact postInit_options_of_empty c h
  · intro c
    exact ⟨postInit_includes_ne_nil c, postInit_options_ne_nil c⟩
  · intro d
    exact ⟨postInit_includes_ne_nil _, postInit_options_ne_nil _⟩

/-- Witness for C10 at a concretely constructed configuration. -/
theorem C10_constructor_defaulting_witness :
    (mkConfig { project_name := "app", language := "python" }).includes =
      defaultIncludes "python" none none ∧
    (mkConfig { project_name := "app", language := "python" }).options =
      [("show_module_boundaries", YVal.b true), ("include_toc", YVal.b true),
       ("validation_level", YVal.s "normal")] :=
  ⟨(C10_constructor_defaulting.1 _ rfl).1, C10_constructor_defaulting.2.1 _ rfl⟩

/-- C9 counterexample: a parsed configuration mapping whose `project` section
has neither a `name` nor a `language` key loads successfully — `from_file`
returns a configuration with the silently substituted defaults
`"Unknown Project"` and `"python"` instead of failing. -/
theorem C9_counterexample :
    (from_file (.parsed (some { project := some {} }))).isOk = true ∧
    (from_file (.parsed (some { project := some {} }))).toOption.map
        (fun cfg => (cfg.project_name, cfg.language)) =
      some ("Unknown Project", "python") := by
  constructor <;> rfl

/-- C9 (amended): `from_file` fails exactly when the file is absent
(`FileNotFoundError`), the YAML is malformed (`yaml.YAMLError` propagates),
or the file parses to `None` (`AttributeError` from `data.get`); any parsed
mapping loads successfully, and a missing project name or language key is
silently replaced by the defaults `"Unknown Project"` / `"python"` rather
than reported. -/
theorem C9_load_failure_conditions :
    (from_file .absent = .error .fileNotFound) ∧
    (from_file .malformed = .error .yamlError) ∧
    (from_file (.parsed none) = .error .attributeError) ∧
    (∀ d : RawConfig, from_file (.parsed (some d)) = .ok (from_dict d)) ∧
    (∀ d : RawConfig, ∀ p : RawProject, d.project = some p →
      (p.name = none → (from_dict d).project_name = "Unknown Project") ∧
      (p.language = none → (from_dict d).language = "python")) ∧
    (∀ d : RawConfig, d.project = none →
      (from_dict d).project_name = "Unknown Project" ∧
      (from_dict d).language = "python") := by
  refine ⟨rfl, rfl, rfl, fun d => rfl, ?_, ?_⟩
  · intro d p hp
    constructor
    · intro hn
      simp [from_dict, postInit_project_name, hp, hn]
    · intro hl
      simp [from_dict, postInit_language, hp, hl]
  · intro d hp
    constructor
    · simp [from_dict, postInit_project_name, hp]
    · simp [from_dict, postInit_language, hp]

/-- Witness for C9's amended statement at concrete inputs. -/
theorem C9_load_failure_conditions_witness :
    from_file .absent = .error .fileNotFound ∧
    (from_dict { project := some {} }).project_name = "Unknown Project" ∧
    (from_dict { project := some {} }).language = "python" :=
  ⟨C9_load_failure_conditions.1,
   (C9_load_failure_conditions.2.2.2.2.1 _ {} rfl).1 rfl,
   (C9_load_failure_conditions.2.2.2.2.1 _ {} rfl).2 rfl⟩

/-- C4 counterexample: `load(save(C))` does not reproduce C's semantic
fields — `to_dict` writes no `database` key (while `from_dict` reads it from
the top level), so a configuration with `database = "postgresql"` round-trips
to one with no database at all. -/
theorem C4_counterexample :
    (roundTrip c4SourceConfig).database = none ∧
    c4SourceConfig.database = some "postgresql" ∧
    roundTrip c4SourceConfig ≠ c4SourceConfig := by
  refine ⟨rfl, rfl, ?_⟩
  decide

/-- C4 (amended): for every constructed configuration (includes and options
non-empty, the `__post_init__` invariant), `load(save(C))` reproduces the
project name, type, language, framework, includes list, custom modules,
options and version exactly, but always loses `database` (it comes back as
`None` because `to_dict` never serializes it). -/
theorem C4_roundtrip_amended :
    ∀ c : ClydeConfig, c.includes ≠ [] → c.options ≠ [] →
      (roundTrip c).project_name = c.project_name ∧
      (roundTrip c).project_type = c.project_type ∧
      (roundTrip c).language = c.language ∧
      (roundTrip c).framework = c.framework ∧
      (roundTrip c).includes = c.includes ∧
      (roundTrip c).custom_modules = c.custom_modules ∧
      (roundTrip c).options = c.options ∧
      (roundTrip c).version = c.version ∧
      (roundTrip c).database = none := by
  intro c h1 h2
  have hX : roundTrip c = postInit
      { project_name := c.project_name, language := c.language,
        framework := c.framework, database := none,
        project_type := c.project_type, includes := c.includes,
        custom_modules := c.custom_modules, options := c.options,
        version := c.version } := rfl
  rw [hX, postInit_of_ne_nil
    { project_name := c.project_name, language := c.language,
      framework := c.framework, database := none,
      project_type := c.project_type, includes := c.includes,
      custom_modules := c.custom_modules, options := c.options,
      version := c.version } h1 h2]
  exact ⟨rfl, rfl, rfl, rfl, rfl, rfl, rfl, rfl, rfl⟩

/-- Witness for C4's amended statement at a concrete configuration. -/
theorem C4_roundtrip_amended_witness :
    (roundTrip c4RoundConfig).includes = ["core.tdd"] ∧
    (roundTrip c4RoundConfig).database = none := by
  have h := C4_roundtrip_amended c4RoundConfig (by decide) (by decide)
  exact ⟨h.2.2.2.2.1, h.2.2.2.2.2.2.2.2⟩



set_option maxRecDepth 200000 in
/-- C5: the configuration hash is deterministic; it is a function of the
serialized semantic fields alone, so two configurations with identical
semantic fields hash identically however they were constructed; and the
hashed canonical serialization captures the order of the includes list —
for any two configurations differing only in the order of their (plain,
as all real module IDs are) includes, the serializations differ, and at the
concrete reordered-module-list pair below the truncated MD5 hashes differ
as well. -/
theorem C5_config_hash_properties :
    (∀ c : ClydeConfig, c.get_config_hash = c.get_config_hash) ∧
    (∀ c1 c2 : ClydeConfig,
      c1.project_name = c2.project_name → c1.project_type = c2.project_type →
      c1.language = c2.language → c1.framework = c2.framework →
      c1.includes = c2.includes → c1.custom_modules = c2.custom_modules →
      c1.options = c2.options → c1.version = c2.version →
      c1.get_config_hash = c2.get_config_hash) ∧
    (∀ c1 c2 : ClydeConfig,
      c1.project_name = c2.project_name → c1.project_type = c2.project_type →
      c1.language = c2.language → c1.framework = c2.framework →
      c1.custom_modules = c2.custom_modules →
      c1.options = c2.options → c1.version = c2.version →
      (∀ m ∈ c1.includes, yamlScalar m = m) →
      (∀ m ∈ c2.includes, yamlScalar m = m) →
      c1.includes ≠ c2.includes →
      configYamlLines c1.to_dict ≠ configYamlLines c2.to_dict) ∧
    (c5ConfigDT.get_config_hash ≠ c5ConfigTD.get_config_hash) := by
  refine ⟨fun c => rfl, ?_, ?_, by decide⟩
  · intro c1 c2 hn ht hl hf hi hcm ho hv
    have hd : c1.to_dict = c2.to_dict := by
      simp only [ClydeConfig.to_dict]
      rw [hn, ht, hl, hf, hi, hcm, ho, hv]
    simp only [ClydeConfig.get_config_hash, hd]
  · intro c1 c2 hn ht hl hf hcm ho hv hp1 hp2 hne heq
    apply hne
    simp only [configYamlLines, ClydeConfig.to_dict] at heq
    rw [hn, ht, hl, hf, hcm, ho, hv] at heq
    simp only [List.append_assoc] at heq
    exact includesLines_inj _ _ hp1 hp2
      (List.append_cancel_right (List.append_cancel_left heq))

/-- Witness for C5 at concrete configurations: equal fields give an equal
hash; swapping two module IDs changes the serialization. -/
theorem C5_config_hash_properties_witness :
    c5ConfigSingle.get_config_hash = c5ConfigSingle.get_config_hash ∧
    configYamlLines c5ConfigDT.to_dict ≠ configYamlLines c5ConfigTD.to_dict :=
  ⟨C5_config_hash_properties.2.1 _ _ rfl rfl rfl rfl rfl rfl rfl rfl,
   C5_config_hash_properties.2.2.1 _ _ rfl rfl rfl rfl rfl rfl rfl
     (by decide) (by decide) (by decide)⟩



/-! ## Projection lemmas for the orchestrator model -/

@[simp] theorem logOp_fs (env : SyncEnv) (e oid : String) (w : World) :
    (logOp env e oid w).fs = w.fs := by
  unfold logOp; split <;> rfl

@[simp] theorem logOp_snapshots (env : SyncEnv) (e oid : String) (w : World) :
    (logOp env e oid w).snapshots = w.snapshots := by
  unfold logOp; split <;> rfl

@[simp] theorem logOp_trace (env : SyncEnv) (e oid : String) (w : World) :
    (logOp env e oid w).trace = w.trace := by
  unfold logOp; split <;> rfl

@[simp] theorem enterPhase_fs (p : SyncPhase) (w : World) :
    (enterPhase p w).fs = w.fs := rfl

@[simp] theorem enterPhase_snapshots (p : SyncPhase) (w : World) :
    (enterPhase p w).snapshots = w.snapshots := rfl

@[simp] theorem enterPhase_trace (p : SyncPhase) (w : World) :
    (enterPhase p w).trace = w.trace ++ [p] := rfl

@[simp] theorem createSnapshot_snd_fs (env : SyncEnv) (op oid : String)
    (w : World) : ((createSnapshot env op oid w).2).fs = w.fs := by
  unfold createSnapshot; split <;> simp

@[simp] theorem createSnapshot_snd_trace (env : SyncEnv) (op oid : String)
    (w : World) : ((createSnapshot env op oid w).2).trace = w.trace := by
  unfold createSnapshot; split <;> simp

@[simp] theorem monitoredSync_snd_trace (env : SyncEnv) (t : Option String)
    (w : World) : ((monitoredSync env t w).2).trace = w.trace := by
  unfold monitoredSync
  rcases env.syncRun t w.fs with ⟨r, fs'⟩
  cases r <;> rfl

@[simp] theorem monitoredSync_snd_snapshots (env : SyncEnv) (t : Option String)
    (w : World) : ((monitoredSync env t w).2).snapshots = w.snapshots := by
  unfold monitoredSync
  rcases env.syncRun t w.fs with ⟨r, fs'⟩
  cases r <;> rfl

@[simp] theorem rollbackToSnapshot_snd_trace (env : SyncEnv) (sid : String)
    (w : World) : ((rollbackToSnapshot env sid w).2).trace = w.trace := by
  unfold rollbackToSnapshot
  rcases alistGet w.snapshots sid with _ | st
  · rfl
  · by_cases h : env.rollbackCopyFails <;> simp [h]

/-! ## Orchestrator claim theorems -/

/-- C2: with an error-severity pre-sync issue and no force override,
`bulletproof_sync` fails at the VALIDATE phase with no filesystem mutation
and no snapshot created; with `force=true` it always proceeds to the
SNAPSHOTTING phase. -/
theorem C2_pre_sync_validation_gate :
    ∀ (env : SyncEnv) (target : Option String) (w : World)
      (issues : List ValidationIssue),
      env.preSync w.fs = .ok issues →
      (errorIssueIn issues = true →
        (bulletproofSync env target false w).1.success = false ∧
        (bulletproofSync env target false w).1.operation = SyncOperation.VALIDATE ∧
        (bulletproofSync env target false w).2.fs = w.fs ∧
        (bulletproofSync env target false w).2.snapshots = w.snapshots) ∧
      SyncPhase.SNAPSHOTTING ∈ (bulletproofSync env target true w).2.trace := by
  intro env target w issues hpre
  constructor
  · intro herr
    simp only [bulletproofSync, bulletproofSyncBody, enterPhase_fs, logOp_fs,
      hpre, herr, Bool.not_false, Bool.true_and, if_true]
    simp
  · simp only [bulletproofSync, bulletproofSyncBody, enterPhase_fs, logOp_fs,
      hpre, Bool.not_true, Bool.false_and, Bool.false_eq_true, if_false]
    rcases hcs : createSnapshot env "pre_sync" env.operationId
        (enterPhase SyncPhase.SNAPSHOTTING
          (enterPhase SyncPhase.VALIDATING
            (logOp env "SYNC_START" env.operationId w))) with ⟨sid, w2⟩
    have hw2 : w2.trace =
        w.trace ++ [SyncPhase.VALIDATING] ++ [SyncPhase.SNAPSHOTTING] := by
      have h := createSnapshot_snd_trace env "pre_sync" env.operationId
        (enterPhase SyncPhase.SNAPSHOTTING
          (enterPhase SyncPhase.VALIDATING
            (logOp env "SYNC_START" env.operationId w)))
      rw [hcs] at h
      simpa using h
    cases sid with
    | none => simp [hw2]
    | some snapshotId =>
      rcases hms : monitoredSync env target (enterPhase SyncPhase.SYNCING w2)
        with ⟨sr, w3⟩
      have hw3 : w3.trace = w2.trace ++ [SyncPhase.SYNCING] := by
        have h := monitoredSync_snd_trace env target (enterPhase SyncPhase.SYNCING w2)
        rw [hms] at h
        simpa using h
      by_cases hss : sr.success
      · simp only [hms, hss, Bool.true_eq_false, if_false, enterPhase_fs]
        rcases hps : env.postSync w3.fs with e | vis
        · simp [hps, hw3, hw2]
        · simp only [hps]
          by_cases hvi : vis.isEmpty
          · simp [hvi, hw3, hw2]
          · simp [hvi, hw3, hw2]
      · simp only [Bool.not_eq_true] at hss
        simp [hms, hss, hw3, hw2]


/-- C3 counterexample: a sync whose write phase succeeds and whose post-sync
issue list contains only a warning (no error-severity issue) still fails and
rolls back when force is not requested — the source gates on
`if verification_issues` (any issue at all), not on error severity. -/
theorem C3_counterexample :
    errorIssueIn ((bulletproofSync c3Env none false c3World).1.issues) = false ∧
    (∀ i ∈ (bulletproofSync c3Env none false c3World).1.issues,
      i.severity = "warning") ∧
    (bulletproofSync c3Env none false c3World).1.success = false ∧
    (bulletproofSync c3Env none false c3World).1.operation = SyncOperation.VERIFY ∧
    SyncPhase.ROLLING_BACK ∈ (bulletproofSync c3Env none false c3World).2.trace := by
  refine ⟨by decide, ?_, by decide, by decide, by decide⟩
  decide

/-- C3 (amended): for a sync whose write phase succeeds (pre-sync gate
passed, snapshot captured, write phase returned normally, post-sync
validation returned normally), the operation reports failure and transitions
to ROLLING_BACK iff the post-sync issue list is non-empty and force was not
requested — any issue at all blocks, not only error-severity ones. -/
theorem C3_post_sync_gate_amended :
    ∀ (env : SyncEnv) (target : Option String) (force : Bool) (w : World)
      (pre post : List ValidationIssue) (changes : List String) (fs1 : FS),
      w.trace = [] →
      env.preSync w.fs = .ok pre →
      (force = true ∨ errorIssueIn pre = false) →
      env.snapshotCopyFails = false →
      env.syncRun target w.fs = (.ok changes, fs1) →
      env.postSync fs1 = .ok post →
      (((bulletproofSync env target force w).1.success = false ∧
          SyncPhase.ROLLING_BACK ∈ (bulletproofSync env target force w).2.trace) ↔
        (post ≠ [] ∧ force = false)) := by
  intro env target force w pre post changes fs1 htr hpre hforce hsf hsync hpost
  have hcond : (!force && errorIssueIn pre) = false := by
    rcases hforce with h | h <;> simp [h]
  simp only [bulletproofSync, bulletproofSyncBody, enterPhase_fs, logOp_fs,
    hpre, hcond, Bool.false_eq_true, if_false, createSnapshot, hsf,
    createSnapshot_snd_fs, monitoredSync, logOp_snapshots, logOp_trace,
    enterPhase_snapshots, enterPhase_trace, hsync, hpost]
  by_cases hf : force
  · subst hf
    simp [hpost, htr]
  · simp only [Bool.not_eq_true] at hf
    subst hf
    by_cases hpn : post.isEmpty
    · have : post = [] := by simpa [List.isEmpty_iff] using hpn
      subst this
      simp [htr]
    · have hne : post ≠ [] := by simpa [List.isEmpty_iff] using hpn
      simp [hpn, hne, htr, rollbackToSnapshot_snd_trace]



/-- Witness for C3's amended statement: at the concrete environment above,
the warning-only post-sync issue list does make the sync fail and roll
back. -/
theorem C3_post_sync_gate_amended_witness :
    (bulletproofSync c3Env none false c3World).1.success = false ∧
    SyncPhase.ROLLING_BACK ∈ (bulletproofSync c3Env none false c3World).2.trace :=
  (C3_post_sync_gate_amended c3Env none false c3World []
    [{ severity := "warning", category := "file",
       message := "Generated file seems unusually small: claude" }]
    ["Update .clyde/generated-claude.md"] c3World.fs
    rfl rfl (Or.inr rfl) rfl rfl rfl).mpr ⟨by decide, rfl⟩


theorem createSnapshot_pair (env : SyncEnv) (b1 b2 : Bool) (op oid : String)
    (w1 w2 : World) (hfs : w1.fs = w2.fs) (hsn : w1.snapshots = w2.snapshots) :
    (createSnapshot { env with auditWriteOk := b1 } op oid w1).1 =
      (createSnapshot { env with auditWriteOk := b2 } op oid w2).1 ∧
    ((createSnapshot { env with auditWriteOk := b1 } op oid w1).2).fs =
      ((createSnapshot { env with auditWriteOk := b2 } op oid w2).2).fs ∧
    ((createSnapshot { env with auditWriteOk := b1 } op oid w1).2).snapshots =
      ((createSnapshot { env with auditWriteOk := b2 } op oid w2).2).snapshots := by
  unfold createSnapshot
  by_cases h : env.snapshotCopyFails <;> simp [h, hfs, hsn]

theorem monitoredSync_pair (env : SyncEnv) (b1 b2 : Bool) (t : Option String)
    (w1 w2 : World) (hfs : w1.fs = w2.fs) (hsn : w1.snapshots = w2.snapshots) :
    (monitoredSync { env with auditWriteOk := b1 } t w1).1 =
      (monitoredSync { env with auditWriteOk := b2 } t w2).1 ∧
    ((monitoredSync { env with auditWriteOk := b1 } t w1).2).fs =
      ((monitoredSync { env with auditWriteOk := b2 } t w2).2).fs ∧
    ((monitoredSync { env with auditWriteOk := b1 } t w1).2).snapshots =
      ((monitoredSync { env with auditWriteOk := b2 } t w2).2).snapshots := by
  unfold monitoredSync
  rw [hfs]
  rcases env.syncRun t w2.fs with ⟨r, fs'⟩
  cases r <;> simp [hsn]

theorem rollbackToSnapshot_pair (env : SyncEnv) (b1 b2 : Bool) (sid : String)
    (w1 w2 : World) (hfs : w1.fs = w2.fs) (hsn : w1.snapshots = w2.snapshots) :
    (rollbackToSnapshot { env with auditWriteOk := b1 } sid w1).1 =
      (rollbackToSnapshot { env with auditWriteOk := b2 } sid w2).1 ∧
    ((rollbackToSnapshot { env with auditWriteOk := b1 } sid w1).2).fs =
      ((rollbackToSnapshot { env with auditWriteOk := b2 } sid w2).2).fs ∧
    ((rollbackToSnapshot { env with auditWriteOk := b1 } sid w1).2).snapshots =
      ((rollbackToSnapshot { env with auditWriteOk := b2 } sid w2).2).snapshots := by
  unfold rollbackToSnapshot
  rw [hsn, hfs]
  rcases alistGet w2.snapshots sid with _ | st
  · simp [hfs, hsn]
  · by_cases h : env.rollbackCopyFails <;> simp [h, hfs, hsn]

/-- C8: no exception escapes the orchestrator — every exception the body
raises is converted by the outer handler into a failed `SyncResult` (first
part), and the returned `SyncResult` is identical whether or not audit-log
writes succeed (second part): observability failures never affect the
operation's outcome. -/
theorem C8_no_exception_escapes :
    (∀ (env : SyncEnv) (target : Option String) (force : Bool) (w : World)
      (e : String) (w' : World),
      bulletproofSyncBody env target force
          (logOp env "SYNC_START" env.operationId w) = .error (e, w') →
      bulletproofSync env target force w =
        ({ success := false, operation := SyncOperation.SYNC,
           message := "Unexpected error during sync: " ++ e },
          logOp env "SYNC_ERROR" env.operationId w')) ∧
    (∀ (env : SyncEnv) (target : Option String) (force : Bool) (w : World),
      (bulletproofSync { env with auditWriteOk := false } target force w).1 =
        (bulletproofSync { env with auditWriteOk := true } target force w).1) := by
  constructor
  · intro env target force w e w' h
    simp only [bulletproofSync, h]
  · intro env target force w
    simp only [bulletproofSync, bulletproofSyncBody, enterPhase_fs, logOp_fs]
    rcases hpre : env.preSync w.fs with e | issues
    · simp
    · by_cases hc : (!force && errorIssueIn issues) = true
      · simp [hc]
      · simp only [Bool.not_eq_true] at hc
        simp only [hc, Bool.false_eq_true, if_false]
        rcases hcs1 : createSnapshot { env with auditWriteOk := false }
            "pre_sync" env.operationId
            (enterPhase SyncPhase.SNAPSHOTTING (enterPhase SyncPhase.VALIDATING
              (logOp { env with auditWriteOk := false } "SYNC_START"
                env.operationId w))) with ⟨sid1, u1⟩
        rcases hcs2 : createSnapshot { env with auditWriteOk := true }
            "pre_sync" env.operationId
            (enterPhase SyncPhase.SNAPSHOTTING (enterPhase SyncPhase.VALIDATING
              (logOp { env with auditWriteOk := true } "SYNC_START"
                env.operationId w))) with ⟨sid2, u2⟩
        have hpair := createSnapshot_pair env false true "pre_sync"
          env.operationId
          (enterPhase SyncPhase.SNAPSHOTTING (enterPhase SyncPhase.VALIDATING
            (logOp { env with auditWriteOk := false } "SYNC_START"
              env.operationId w)))
          (enterPhase SyncPhase.SNAPSHOTTING (enterPhase SyncPhase.VALIDATING
            (logOp { env with auditWriteOk := true } "SYNC_START"
              env.operationId w)))
          (by simp) (by simp)
        rw [hcs1, hcs2] at hpair
        obtain ⟨hsid, hufs, husn⟩ := hpair
        simp only at hsid hufs husn
        subst hsid
        cases sid1 with
        | none => simp
        | some sid =>
          simp only []
          rcases hms1 : monitoredSync { env with auditWriteOk := false } target
            (enterPhase SyncPhase.SYNCING u1) with ⟨sr1, v1⟩
          rcases hms2 : monitoredSync { env with auditWriteOk := true } target
            (enterPhase SyncPhase.SYNCING u2) with ⟨sr2, v2⟩
          have hpair2 := monitoredSync_pair env false true target
            (enterPhase SyncPhase.SYNCING u1) (enterPhase SyncPhase.SYNCING u2)
            (by simp [hufs]) (by simp [husn])
          rw [hms1, hms2] at hpair2
          obtain ⟨hsr, hvfs, hvsn⟩ := hpair2
          simp only at hsr hvfs hvsn
          subst hsr
          by_cases hss : sr1.success
          · simp only [hss, Bool.not_true, Bool.false_eq_true, if_false,
              enterPhase_fs]
            rw [hvfs]
            rcases hpost : env.postSync v2.fs with e2 | vis
            · simp
            · by_cases hvi : (!vis.isEmpty && !force) = true
              · rcases hrb1 : rollbackToSnapshot { env with auditWriteOk := false }
                  sid (enterPhase SyncPhase.ROLLING_BACK
                    (enterPhase SyncPhase.VERIFYING v1)) with ⟨rr1, z1⟩
                rcases hrb2 : rollbackToSnapshot { env with auditWriteOk := true }
                  sid (enterPhase SyncPhase.ROLLING_BACK
                    (enterPhase SyncPhase.VERIFYING v2)) with ⟨rr2, z2⟩
                have hpair3 := rollbackToSnapshot_pair env false true sid
                  (enterPhase SyncPhase.ROLLING_BACK (enterPhase SyncPhase.VERIFYING v1))
                  (enterPhase SyncPhase.ROLLING_BACK (enterPhase SyncPhase.VERIFYING v2))
                  (by simp [hvfs]) (by simp [hvsn])
                rw [hrb1, hrb2] at hpair3
                obtain ⟨hrr, h2, h3⟩ := hpair3
                simp only at hrr
                subst hrr
                simp [hvi]
              · simp only [Bool.not_eq_true] at hvi
                simp [hvi]
          · simp only [Bool.not_eq_true] at hss
            rcases hrb1 : rollbackToSnapshot { env with auditWriteOk := false }
              sid (enterPhase SyncPhase.ROLLING_BACK v1) with ⟨rr1, z1⟩
            rcases hrb2 : rollbackToSnapshot { env with auditWriteOk := true }
              sid (enterPhase SyncPhase.ROLLING_BACK v2) with ⟨rr2, z2⟩
            have hpair3 := rollbackToSnapshot_pair env false true sid
              (enterPhase SyncPhase.ROLLING_BACK v1) (enterPhase SyncPhase.ROLLING_BACK v2)
              (by simp [hvfs]) (by simp [hvsn])
            rw [hrb1, hrb2] at hpair3
            obtain ⟨hrr, h2, h3⟩ := hpair3
            simp only at hrr
            subst hrr
            simp [hss]


/-- Witness for C8: a raised collaborator exception is translated into a
failed `SyncResult`, and the result is audit-independent, at a concrete
environment. -/
theorem C8_no_exception_escapes_witness :
    bulletproofSync c8Env none false { fs := [] } =
      ({ success := false, operation := SyncOperation.SYNC,
         message := "Unexpected error during sync: AttributeError: targets" },
        logOp c8Env "SYNC_ERROR" "op"
          (enterPhase SyncPhase.VALIDATING
            (logOp c8Env "SYNC_START" "op" { fs := [] }))) ∧
    (bulletproofSync { c8Env with auditWriteOk := false } none false
        { fs := [] }).1 =
      (bulletproofSync { c8Env with auditWriteOk := true } none false
        { fs := [] }).1 :=
  ⟨C8_no_exception_escapes.1 c8Env none false { fs := [] } _ _ rfl,
   C8_no_exception_escapes.2 c8Env none false { fs := [] }⟩

/-! ## Filesystem lemmas for the rollback claim -/

theorem fsGet_fsWrite (fs : FS) (p c q : String) :
    fsGet (fsWrite fs p c) q = if p = q then some c else fsGet fs q := by
  induction fs with
  | nil => simp [fsWrite, fsGet, alistGet]
  | cons hd tl ih =>
    rcases hd with ⟨k, v⟩
    by_cases hk : k = p
    · subst hk
      simp only [fsWrite, if_pos rfl]
      by_cases hq : k = q <;> simp [fsGet, alistGet, hq]
    · simp only [fsWrite, if_neg hk]
      by_cases hq : k = q
      · subst hq
        have hpq : p ≠ k := fun h => hk h.symm
        simp [fsGet, alistGet, hpq]
      · simp only [fsGet, alistGet, if_neg hq] at ih ⊢
        exact ih

theorem fsGet_foldl_write (g : String → String) (ps : List String) (fs : FS)
    (q : String) :
    fsGet (ps.foldl (fun a p => fsWrite a p (g p)) fs) q =
      if q ∈ ps then some (g q) else fsGet fs q := by
  induction ps generalizing fs with
  | nil => simp
  | cons p ps ih =>
    simp only [List.foldl_cons]
    rw [ih]
    by_cases hq : q ∈ ps
    · simp [hq, List.mem_cons]
    · simp only [hq, if_false]
      rw [fsGet_fsWrite]
      by_cases hpq : p = q
      · subst hpq
        simp
      · have hqp : ¬ q ∈ p :: ps := by
          intro hmem
          rcases List.mem_cons.mp hmem with h | h
          · exact hpq h.symm
          · exact hq h
        simp [hpq, hqp]

theorem alistGet_map_self {α : Type} (g : String → α) (l : List String)
    (q : String) (hq : q ∈ l) :
    alistGet (l.map fun p => (p, g p)) q = some (g q) := by
  induction l with
  | nil => cases hq
  | cons p ps ih =>
    simp only [List.map_cons, alistGet]
    by_cases hpq : p = q
    · subst hpq
      simp
    · rcases List.mem_cons.mp hq with h | h
      · exact absurd h.symm hpq
      · simp [hpq, ih h]

theorem alistGet_append_left_none {α : Type} (l m : List (String × α))
    (k : String) (h : alistGet l k = none) :
    alistGet (l ++ m) k = alistGet m k := by
  induction l with
  | nil => rfl
  | cons hd tl ih =>
    rcases hd with ⟨q, v⟩
    simp only [alistGet, List.cons_append] at h ⊢
    by_cases hk : q = k
    · simp [hk] at h
    · simp only [if_neg hk] at h ⊢
      exact ih h

theorem alistGet_append_singleton {α : Type} (l : List (String × α))
    (k : String) (v : α) (h : alistGet l k = none) :
    alistGet (l ++ [(k, v)]) k = some v := by
  rw [alistGet_append_left_none _ _ _ h]
  simp [alistGet]

/-- C1 counterexample: a sync that fails after the snapshot was captured is
rolled back "successfully", yet the file the failed sync created (absent
before the sync) is still present afterwards — the file set after rollback
differs from the pre-sync file set, because `_rollback_to_snapshot` only
copies snapshotted files back and never deletes. -/
theorem C1_counterexample :
    (bulletproofSync c1Env none false c1World).1.success = false ∧
    (bulletproofSync c1Env none false c1World).1.rollback_available = true ∧
    fsGet c1World.fs ".clyde/generated-claude.md" = none ∧
    fsGet ((bulletproofSync c1Env none false c1World).2).fs
        ".clyde/generated-claude.md" = some "partial content" ∧
    fsGet ((bulletproofSync c1Env none false c1World).2).fs
        ".clyde/config.yaml" = some "cfg-v1" := by
  decide

/-- C1 (amended): for every sync that fails after the snapshot was captured
(with rollback itself succeeding on a fresh snapshot id), the automatic
rollback restores every snapshotted file — every file that existed among the
backup candidates before the sync — to its exact pre-sync content; but files
outside the snapshot's file set keep whatever the failed write phase left
(in particular, files the failed sync created are not removed). -/
theorem C1_rollback_restores_snapshotted_files :
    ∀ (env : SyncEnv) (target : Option String) (force : Bool) (w : World)
      (pre : List ValidationIssue) (msg : String) (fs1 : FS),
      env.preSync w.fs = .ok pre →
      (force = true ∨ errorIssueIn pre = false) →
      env.snapshotCopyFails = false →
      env.rollbackCopyFails = false →
      env.syncRun target w.fs = (.error msg, fs1) →
      alistGet w.snapshots ("pre_sync" ++ "_" ++ env.operationId) = none →
      (bulletproofSync env target force w).1.success = false ∧
      (bulletproofSync env target force w).1.snapshot_id =
        some ("pre_sync" ++ "_" ++ env.operationId) ∧
      (bulletproofSync env target force w).1.rollback_available = true ∧
      (∀ p ∈ filesToBackup env.targets w.fs,
        fsGet ((bulletproofSync env target force w).2).fs p = fsGet w.fs p) ∧
      (∀ p, p ∉ filesToBackup env.targets w.fs →
        fsGet ((bulletproofSync env target force w).2).fs p = fsGet fs1 p) := by
  intro env target force w pre msg fs1 hpre hforce hsf hrf hsync hfresh
  have hcond : (!force && errorIssueIn pre) = false := by
    rcases hforce with h | h <;> simp [h]
  simp only [bulletproofSync, bulletproofSyncBody, enterPhase_fs, logOp_fs,
    hpre, hcond, Bool.false_eq_true, if_false, createSnapshot, hsf,
    createSnapshot_snd_fs, monitoredSync, logOp_snapshots,
    enterPhase_snapshots, hsync]
  simp only [Bool.not_false, if_true, rollbackToSnapshot, enterPhase_snapshots,
    logOp_snapshots, hrf, Bool.false_eq_true, if_false,
    alistGet_append_singleton, hfresh]
  have hres : (((filesToBackup env.targets w.fs).map
        fun p => (p, env.sha256hex ((fsGet w.fs p).getD ""))).map Prod.fst).filter
        (fun p => (alistGet ((filesToBackup env.targets w.fs).map
          fun p => (p, (fsGet w.fs p).getD "")) p).isSome) =
      filesToBackup env.targets w.fs := by
    rw [List.map_map]
    have hid : (Prod.fst ∘ fun p : String =>
        (p, env.sha256hex ((fsGet w.fs p).getD ""))) = id := rfl
    rw [hid, List.map_id]
    refine List.filter_eq_self.mpr ?_
    intro p hp
    rw [alistGet_map_self _ _ _ hp]
    rfl
  simp only [hres]
  refine ⟨by simp, by simp, by simp, ?_, ?_⟩
  · intro p hp
    simp only [logOp_fs, enterPhase_fs]
    rw [fsGet_foldl_write (fun p => (alistGet ((filesToBackup env.targets w.fs).map
      fun p => (p, (fsGet w.fs p).getD "")) p).getD "")]
    simp only [hp, if_true]
    rw [alistGet_map_self _ _ _ hp]
    have hex : fsExists w.fs p = true := (List.mem_filter.mp hp).2
    rcases hv : fsGet w.fs p with _ | v
    · rw [fsExists, hv] at hex
      cases hex
    · simp
  · intro p hp
    simp only [logOp_fs, enterPhase_fs]
    rw [fsGet_foldl_write (fun p => (alistGet ((filesToBackup env.targets w.fs).map
      fun p => (p, (fsGet w.fs p).getD "")) p).getD "")]
    simp [hp]


/-- Witness for C1's amended statement: the snapshotted config file really is
restored byte-for-byte at the concrete failing sync. -/
theorem C1_rollback_restores_snapshotted_files_witness :
    (bulletproofSync c1Env none false c1World).1.success = false ∧
    fsGet ((bulletproofSync c1Env none false c1World).2).fs ".clyde/config.yaml" =
      fsGet c1World.fs ".clyde/config.yaml" := by
  have h := C1_rollback_restores_snapshotted_files c1Env none false c1World []
    "Disk full" (fsWrite c1World.fs ".clyde/generated-claude.md" "partial content")
    rfl (Or.inr rfl) rfl rfl rfl rfl
  exact ⟨h.1, h.2.2.2.1 ".clyde/config.yaml" (by decide)⟩

/-! ## Audit-trail lemmas and claims -/

theorem filterMap_drop_of_all_isSome {α β : Type} (f : α → Option β)
    (l : List α) (k : Nat) (h : ∀ x ∈ l, (f x).isSome) :
    (l.drop k).filterMap f = (l.filterMap f).drop k := by
  induction l generalizing k with
  | nil => simp
  | cons a t ih =>
    cases k with
    | zero => simp
    | succ k =>
      rcases hfa : f a with _ | b
      · have := h a (List.mem_cons_self a t)
        rw [hfa] at this
        cases this
      · simp only [List.drop_succ_cons, List.filterMap_cons, hfa,
          List.drop_succ_cons]
        exact ih k fun x hx => h x (List.mem_cons_of_mem _ hx)

/-- C7 counterexample: with log lines `a`, `notjson`, `b` and `limit = 2`,
`get_audit_trail` returns only `[b]` — it truncates to the last 2 lines
before parsing, so the unparseable line inside the window costs an entry —
while the claim's reading (most recent 2 parseable entries) is `[a, b]`. -/
theorem C7_counterexample :
    getAuditTrail c7Parse true ("a" ++ "\n" ++ "notjson" ++ "\n" ++ "b") 2 =
      ["b"] ∧
    specTailMostRecentParseable c7Parse
        ("a" ++ "\n" ++ "notjson" ++ "\n" ++ "b") 2 = ["a", "b"] ∧
    getAuditTrail c7Parse true ("a" ++ "\n" ++ "notjson" ++ "\n" ++ "b") 2 ≠
      specTailMostRecentParseable c7Parse
        ("a" ++ "\n" ++ "notjson" ++ "\n" ++ "b") 2 := by
  refine ⟨?_, ?_, ?_⟩ <;> decide

/-- C7 (amended): `tail(limit)` keeps the last `min(limit, n)` non-empty
lines of the log (all of them when `limit = 0`) and returns those that
parse, skipping unparseable ones, in chronological order — a subsequence of
all parseable entries; only when every line in the log parses (and
`limit ≥ 1`) does it return the most recent `limit` parseable entries,
oldest first. -/
theorem C7_audit_tail_amended :
    ∀ {α : Type} (parseLine : String → Option α) (content : String)
      (limit : Nat),
      (getAuditTrail parseLine true content limit).Sublist
        ((pyStripLines content).filterMap parseLine) ∧
      (1 ≤ limit → (∀ l ∈ pyStripLines content, (parseLine l).isSome) →
        getAuditTrail parseLine true content limit =
          ((pyStripLines content).filterMap parseLine).drop
            ((pyStripLines content).length - limit)) := by
  intro α parseLine content limit
  constructor
  · unfold getAuditTrail pyTailSlice
    simp only [Bool.not_true, Bool.false_eq_true, if_false]
    split
    · split
      · exact List.Sublist.refl _
      · exact List.Sublist.filterMap _ (List.drop_sublist _ _)
    · exact List.Sublist.refl _
  · intro hlim hall
    unfold getAuditTrail pyTailSlice
    have hlz : ¬ limit = 0 := by omega
    simp only [Bool.not_true, Bool.false_eq_true, if_false, hlz]
    by_cases hgt : (pyStripLines content).length > limit
    · simp only [hgt, if_true]
      exact filterMap_drop_of_all_isSome _ _ _ hall
    · simp only [hgt, if_false]
      have h0 : (pyStripLines content).length - limit = 0 := by omega
      rw [h0, List.drop_zero]



/-- Witness for C7's amended statement on an all-parseable log. -/
theorem C7_audit_tail_amended_witness :
    getAuditTrail c7Parse true ("a" ++ "\n" ++ "b" ++ "\n" ++ "c") 2 =
      ((pyStripLines ("a" ++ "\n" ++ "b" ++ "\n" ++ "c")).filterMap
          c7Parse).drop
        ((pyStripLines ("a" ++ "\n" ++ "b" ++ "\n" ++ "c")).length - 2) :=
  (C7_audit_tail_amended c7Parse ("a" ++ "\n" ++ "b" ++ "\n" ++ "c") 2).2
    (by decide) (by decide)

/-! ## Ordering lemmas for the snapshot sort -/

theorem charListLe_total : ∀ as bs : List Char,
    (charListLe as bs || charListLe bs as) = true := by
  intro as
  induction as with
  | nil => intro bs; simp [charListLe]
  | cons a as ih =>
    intro bs
    cases bs with
    | nil => simp [charListLe]
    | cons b bs =>
      simp only [charListLe]
      by_cases h1 : a.toNat < b.toNat
      · have h2 : ¬ b.toNat < a.toNat := by omega
        simp [h1, h2]
      · by_cases h2 : b.toNat < a.toNat
        · simp [h1, h2]
        · simp [h1, h2, ih bs]

theorem charListLe_trans : ∀ as bs cs : List Char,
    charListLe as bs = true → charListLe bs cs = true →
    charListLe as cs = true := by
  intro as
  induction as with
  | nil => intro bs cs _ _; simp [charListLe]
  | cons a as ih =>
    intro bs cs h1 h2
    cases bs with
    | nil => simp [charListLe] at h1
    | cons b bs =>
      cases cs with
      | nil => simp [charListLe] at h2
      | cons c cs =>
        simp only [charListLe] at h1 h2 ⊢
        by_cases hab : a.toNat < b.toNat
        · by_cases hbc : b.toNat < c.toNat
          · have hac : a.toNat < c.toNat := by omega
            simp [hac]
          · by_cases hcb : c.toNat < b.toNat
            · simp [hbc, hcb] at h2
            · have hac : a.toNat < c.toNat := by omega
              simp [hac]
        · by_cases hba : b.toNat < a.toNat
          · simp [hab, hba] at h1
          · by_cases hbc : b.toNat < c.toNat
            · have hac : a.toNat < c.toNat := by omega
              simp [hac]
            · by_cases hcb : c.toNat < b.toNat
              · simp [hbc, hcb] at h2
              · have hac1 : ¬ a.toNat < c.toNat := by omega
                have hac2 : ¬ c.toNat < a.toNat := by omega
                simp only [hab, hba, if_false] at h1
                simp only [hbc, hcb, if_false] at h2
                simp [hac1, hac2, ih bs cs h1 h2]

theorem mem_insertBy {α : Type} (le : α → α → Bool) (x : α) (l : List α)
    (a : α) : a ∈ insertBy le x l ↔ a = x ∨ a ∈ l := by
  induction l with
  | nil => simp [insertBy]
  | cons y ys ih =>
    simp only [insertBy]
    split
    · simp [List.mem_cons]
    · simp only [List.mem_cons, ih]
      tauto

theorem pairwise_insertBy {α : Type} (le : α → α → Bool)
    (htot : ∀ a b, (le a b || le b a) = true)
    (htrans : ∀ a b c, le a b = true → le b c = true → le a c = true)
    (x : α) (l : List α) (h : l.Pairwise fun a b => le a b = true) :
    (insertBy le x l).Pairwise fun a b => le a b = true := by
  induction l with
  | nil => simp [insertBy]
  | cons y ys ih =>
    rcases List.pairwise_cons.mp h with ⟨hy, hys⟩
    simp only [insertBy]
    split
    · next hxy =>
      refine List.pairwise_cons.mpr ⟨?_, h⟩
      intro b hb
      rcases List.mem_cons.mp hb with rfl | hbys
      · exact hxy
      · exact htrans x y b hxy (hy b hbys)
    · next hxy =>
      have hxyf : le x y = false := by
        cases hle : le x y
        · rfl
        · exact absurd hle hxy
      have hyx : le y x = true := by
        have := htot x y
        rw [hxyf] at this
        simpa using this
      refine List.pairwise_cons.mpr ⟨?_, ih hys⟩
      intro b hb
      rcases (mem_insertBy le x ys b).mp hb with rfl | hbys
      · exact hyx
      · exact hy b hbys

theorem pairwise_sortBy {α : Type} (le : α → α → Bool)
    (htot : ∀ a b, (le a b || le b a) = true)
    (htrans : ∀ a b c, le a b = true → le b c = true → le a c = true)
    (l : List α) :
    (sortBy le l).Pairwise fun a b => le a b = true := by
  induction l with
  | nil => simp [sortBy]
  | cons x xs ih => exact pairwise_insertBy le htot htrans x (sortBy le xs) ih

theorem summaryTsGe_total (a b : SnapshotSummary) :
    (summaryTsGe a b || summaryTsGe b a) = true := by
  unfold summaryTsGe strLe
  rw [Bool.or_comm]
  exact charListLe_total _ _

theorem summaryTsGe_trans (a b c : SnapshotSummary)
    (h1 : summaryTsGe a b = true) (h2 : summaryTsGe b c = true) :
    summaryTsGe a c = true := by
  unfold summaryTsGe strLe at h1 h2 ⊢
  exact charListLe_trans _ _ _ h2 h1



/-! ## Cleanup fold lemmas -/

theorem cleanupFold_counts (rmtreeFails : String → Bool)
    (items : List SnapshotSummary) :
    ∀ acc : CleanupResult × List SnapDir,
      (items.foldl (cleanupStep rmtreeFails) acc).1.removed =
        acc.1.removed + (items.filter fun s => !rmtreeFails s.id).length ∧
      (items.foldl (cleanupStep rmtreeFails) acc).1.kept =
        acc.1.kept - (items.filter fun s => !rmtreeFails s.id).length ∧
      (items.foldl (cleanupStep rmtreeFails) acc).1.errors =
        acc.1.errors ++ (items.filter fun s => rmtreeFails s.id).map
          (fun s => "Failed to remove " ++ s.id) := by
  induction items with
  | nil => intro acc; simp
  | cons s items ih =>
    intro acc
    simp only [List.foldl_cons]
    rcases ih (cleanupStep rmtreeFails acc s) with ⟨h1, h2, h3⟩
    rw [h1, h2, h3]
    by_cases hf : rmtreeFails s.id
    · simp only [cleanupStep, hf, if_true]
      simp [List.filter_cons, hf]
    · simp only [cleanupStep, hf, Bool.false_eq_true, if_false]
      simp only [List.filter_cons, hf]
      refine ⟨by simp; omega, by simp; omega, by simp⟩

theorem cleanupFold_store_mem (rmtreeFails : String → Bool)
    (items : List SnapshotSummary) :
    ∀ (acc : CleanupResult × List SnapDir) (d : SnapDir),
      d ∈ (items.foldl (cleanupStep rmtreeFails) acc).2 ↔
        (d ∈ acc.2 ∧ ∀ s ∈ items, rmtreeFails s.id = false → s.id ≠ d.id) := by
  induction items with
  | nil => intro acc d; simp
  | cons s items ih =>
    intro acc d
    simp only [List.foldl_cons]
    rw [ih]
    by_cases hf : rmtreeFails s.id
    · simp only [cleanupStep, hf, if_true]
      constructor
      · rintro ⟨hd, hrest⟩
        refine ⟨hd, ?_⟩
        intro t ht htf
        rcases List.mem_cons.mp ht with rfl | ht'
        · rw [hf] at htf
          cases htf
        · exact hrest t ht' htf
      · rintro ⟨hd, hall⟩
        exact ⟨hd, fun t ht htf => hall t (List.mem_cons_of_mem _ ht) htf⟩
    · simp only [cleanupStep, hf, Bool.false_eq_true, if_false]
      simp only [List.mem_filter]
      constructor
      · rintro ⟨⟨hd, hne⟩, hrest⟩
        refine ⟨hd, ?_⟩
        intro t ht htf
        rcases List.mem_cons.mp ht with rfl | ht'
        · intro he
          rw [he] at hne
          simp at hne
        · exact hrest t ht' htf
      · rintro ⟨hd, hall⟩
        have hs := hall s (List.mem_cons_self s items)
          (by simpa using hf)
        refine ⟨⟨hd, ?_⟩, ?_⟩
        · simpa using Ne.symm hs
        · intro t ht htf
          exact hall t (List.mem_cons_of_mem _ ht) htf


/-- C6: snapshot retention cleanup.  With n parseable snapshots: when
n ≤ keep_count nothing is deleted (`removed = 0`, `kept = n`); when
n > keep_count and every deletion succeeds, exactly the n − keep_count
oldest-by-timestamp snapshots are deleted (`removed = n − keep_count`,
`kept = keep_count`, and a directory survives iff it is not among the
dropped window); every kept snapshot's timestamp is ≥ every removed one's;
and in general each deletion failure only adds an error message and never
aborts the remaining deletions (errors collect exactly the failing ids, and
`removed` counts exactly the succeeding ones). -/
theorem C6_cleanup_retention :
    ∀ (rmtreeFails : String → Bool) (dirs : List SnapDir) (keep : Nat),
      ((listSnapshots dirs).length ≤ keep →
        cleanupOldSnapshots rmtreeFails dirs keep =
          ({ removed := 0, kept := (listSnapshots dirs).length, errors := [] },
            dirs)) ∧
      ((keep < (listSnapshots dirs).length →
        (∀ s ∈ (listSnapshots dirs).drop keep, rmtreeFails s.id = false) →
        (cleanupOldSnapshots rmtreeFails dirs keep).1.removed =
            (listSnapshots dirs).length - keep ∧
        (cleanupOldSnapshots rmtreeFails dirs keep).1.kept = keep ∧
        (cleanupOldSnapshots rmtreeFails dirs keep).1.errors = [] ∧
        (∀ d, d ∈ (cleanupOldSnapshots rmtreeFails dirs keep).2 ↔
          (d ∈ dirs ∧ ∀ s ∈ (listSnapshots dirs).drop keep, s.id ≠ d.id)))) ∧
      (∀ s ∈ (listSnapshots dirs).take keep,
        ∀ r ∈ (listSnapshots dirs).drop keep,
        strLe r.timestamp s.timestamp = true) ∧
      (keep < (listSnapshots dirs).length →
        (cleanupOldSnapshots rmtreeFails dirs keep).1.errors =
          (((listSnapshots dirs).drop keep).filter
            fun s => rmtreeFails s.id).map (fun s => "Failed to remove " ++ s.id) ∧
        (cleanupOldSnapshots rmtreeFails dirs keep).1.removed =
          (((listSnapshots dirs).drop keep).filter
            fun s => !rmtreeFails s.id).length) := by
  intro f dirs keep
  refine ⟨?_, ?_, ?_, ?_⟩
  · intro hle
    unfold cleanupOldSnapshots
    simp [hle]
  · intro hlt hall
    have hnle : ¬ (listSnapshots dirs).length ≤ keep := by omega
    unfold cleanupOldSnapshots
    simp only [hnle, if_false]
    rcases cleanupFold_counts f ((listSnapshots dirs).drop keep)
      ({ removed := 0, kept := (listSnapshots dirs).length, errors := [] },
        dirs) with ⟨h1, h2, h3⟩
    have hfilt : (((listSnapshots dirs).drop keep).filter
        fun s => !f s.id) = (listSnapshots dirs).drop keep := by
      refine List.filter_eq_self.mpr ?_
      intro s hs
      simp [hall s hs]
    have hnil : (((listSnapshots dirs).drop keep).filter
        fun s => f s.id) = [] := by
      refine List.filter_eq_nil_iff.mpr ?_
      intro s hs
      simp [hall s hs]
    refine ⟨?_, ?_, ?_, ?_⟩
    · rw [h1, hfilt, List.length_drop]
      show 0 + ((listSnapshots dirs).length - keep) =
        (listSnapshots dirs).length - keep
      omega
    · rw [h2, hfilt, List.length_drop]
      show (listSnapshots dirs).length - ((listSnapshots dirs).length - keep) =
        keep
      omega
    · rw [h3, hnil]
      rfl
    · intro d
      rw [cleanupFold_store_mem f ((listSnapshots dirs).drop keep)
        ({ removed := 0, kept := (listSnapshots dirs).length, errors := [] },
          dirs) d]
      constructor
      · rintro ⟨hd, hrest⟩
        exact ⟨hd, fun s hs => hrest s hs (hall s hs)⟩
      · rintro ⟨hd, hrest⟩
        exact ⟨hd, fun s hs _ => hrest s hs⟩
  · intro s hs r hr
    have hp := pairwise_sortBy summaryTsGe summaryTsGe_total
      (fun a b c => summaryTsGe_trans a b c)
      (dirs.filterMap snapshotSummaryOf)
    have hsplit : listSnapshots dirs =
        (listSnapshots dirs).take keep ++ (listSnapshots dirs).drop keep :=
      (List.take_append_drop keep _).symm
    have hp2 : ((listSnapshots dirs).take keep ++
        (listSnapshots dirs).drop keep).Pairwise
          fun a b => summaryTsGe a b = true := by
      rw [← hsplit]
      exact hp
    rcases List.pairwise_append.mp hp2 with ⟨_, _, hcross⟩
    simpa [summaryTsGe] using hcross s hs r hr
  · intro hlt
    have hnle : ¬ (listSnapshots dirs).length ≤ keep := by omega
    unfold cleanupOldSnapshots
    simp only [hnle, if_false]
    rcases cleanupFold_counts f ((listSnapshots dirs).drop keep)
      ({ removed := 0, kept := (listSnapshots dirs).length, errors := [] },
        dirs) with ⟨h1, _, h3⟩
    refine ⟨by rw [h3]; rfl, ?_⟩
    rw [h1]
    show 0 + _ = _
    omega

/-- Witness for C6 at Scenario D: `keep_count = 2` with 5 snapshots gives
`removed = 3`, `kept = 2`, no errors. -/
theorem C6_cleanup_retention_witness :
    (cleanupOldSnapshots (fun _ => false) c6Dirs 2).1.removed = 3 ∧
    (cleanupOldSnapshots (fun _ => false) c6Dirs 2).1.kept = 2 ∧
    (cleanupOldSnapshots (fun _ => false) c6Dirs 2).1.errors = [] := by
  have h := (C6_cleanup_retention (fun _ => false) c6Dirs 2).2.1
    (by decide) (by intro s _; rfl)
  refine ⟨?_, h.2.1, h.2.2.1⟩
  rw [h.1]
  decide



/-- Witness for C2 at a concrete error-issue environment. -/
theorem C2_pre_sync_validation_gate_witness :
    ((bulletproofSync c2Env none false c2World).1.success = false ∧
      (bulletproofSync c2Env none false c2World).1.operation =
        SyncOperation.VALIDATE ∧
      (bulletproofSync c2Env none false c2World).2.fs = c2World.fs ∧
      (bulletproofSync c2Env none false c2World).2.snapshots =
        c2World.snapshots) ∧
    SyncPhase.SNAPSHOTTING ∈ (bulletproofSync c2Env none true c2World).2.trace := by
  have h := C2_pre_sync_validation_gate c2Env none c2World
    [{ severity := "error", category := "config",
       message := "Configuration file does not exist" }] rfl
  exact ⟨h.1 (by decide), h.2⟩


end Clyde
